import Mathlib

/-!
# send-email edge function: a shallow embedding

Embedding of `functions/send-email/index.ts`.  The handler is a sequence of
guards around two collaborator calls (the identity verifier `auth.getUser` and
the transport `transporter.sendEmail`).  The collaborators and `req.json()` are
parameters of the model; every call made to a collaborator is recorded in an
effect log, so that "the transport is not invoked" is a statement about the log.

Conventions.
* A JavaScript string is a Lean `String`.
* A value that was thrown is a `Thrown`; `Thrown.report` is the expression
  `error instanceof Error ? error.message : String(error)` of the catch block.
* `createClient(..)` and `new postmark.ServerClient(..)` only build a handle
  from configuration values; they are not collaborator calls and are modelled
  as having no effect.
* `Request.authorization` is the value `headers.get("Authorization")` returns;
  `receivedRequest` gives the request seen for a header as it was sent, whose
  leading and trailing whitespace the `Headers` object strips.
-/

namespace SendEmail

/-! ## JavaScript values obtained from `req.json()` -/

/-- A JSON number as the handler can observe it: whether it is zero (the only
falsy numbers `JSON.parse` yields are `0` and `-0`) and its `ToString` image. -/
structure JsNumber where
  isZero : Bool
  text : String
  deriving DecidableEq, Repr

/-- A value produced by `JSON.parse`.  Object members are kept in source order;
a later duplicate key overrides an earlier one. -/
inductive Json where
  | null : Json
  | bool (b : Bool) : Json
  | num (n : JsNumber) : Json
  | str (s : String) : Json
  | arr (items : List Json) : Json
  | obj (members : List (String × Json)) : Json
  deriving Repr

/-- A thrown JavaScript value. -/
inductive Thrown where
  | error (message : String) : Thrown
  | other (asString : String) : Thrown
  deriving DecidableEq, Repr

/-- The catch block's `error instanceof Error ? error.message : String(error)`. -/
def Thrown.report : Thrown → String
  | .error message => message
  | .other asString => asString

/-- The `TypeError` raised by reading property `name` of `null`. -/
def nullReadError (name : String) : Thrown :=
  .error ("Cannot read properties of null (reading '" ++ name ++ "')")

/-- The `TypeError` raised when an object has no callable `toString`/`valueOf`
yielding a primitive. -/
def toPrimitiveError : Thrown :=
  .error "Cannot convert object to primitive value"

/-- Last binding of `key` among the members of a parsed object. -/
def lookupMember (key : String) : List (String × Json) → Option Json
  | [] => none
  | (k, v) :: rest =>
    match lookupMember key rest with
    | some later => some later
    | none => if k = key then some v else none

/-- The property read `requestData.key` on a non-null parsed value; `none` is
`undefined`.  Only objects carry the keys the handler reads. -/
def Json.field (key : String) : Json → Option Json
  | .obj members => lookupMember key members
  | _ => none

/-- JavaScript truthiness (`!v` is its negation); `none` is `undefined`. -/
def truthy : Option Json → Bool
  | none => false
  | some .null => false
  | some (.bool b) => b
  | some (.num n) => !n.isZero
  | some (.str s) => s ≠ ""
  | some (.arr _) => true
  | some (.obj _) => true

/-- Whether a parsed object has an own member named `key`. -/
def hasOwn (key : String) (members : List (String × Json)) : Bool :=
  members.any (fun kv => kv.1 = key)

mutual
/-- The abstract operation `ToString` on a parsed value, as applied by a
template literal. -/
def Json.toStr : Json → Except Thrown String
  | .null => .ok "null"
  | .bool b => .ok (if b then "true" else "false")
  | .num n => .ok n.text
  | .str s => .ok s
  | .arr items => Json.joinItems items
  | .obj members =>
    if hasOwn "toString" members then .error toPrimitiveError else .ok "[object Object]"
/-- The `Array.prototype.join` with separator `","` ; `null` elements print as
the empty string. -/
def Json.joinItems : List Json → Except Thrown String
  | [] => .ok ""
  | [x] => Json.elemStr x
  | x :: y :: rest =>
    match Json.elemStr x with
    | .error e => .error e
    | .ok sx =>
      match Json.joinItems (y :: rest) with
      | .error e => .error e
      | .ok srest => .ok (sx ++ "," ++ srest)
/-- One element of a joined array. -/
def Json.elemStr : Json → Except Thrown String
  | .null => .ok ""
  | .bool b => .ok (if b then "true" else "false")
  | .num n => .ok n.text
  | .str s => .ok s
  | .arr items => Json.joinItems items
  | .obj members =>
    if hasOwn "toString" members then .error toPrimitiveError else .ok "[object Object]"
end

/-- The `ToString` of a possibly `undefined` value. -/
def toStr : Option Json → Except Thrown String
  | none => .ok "undefined"
  | some v => v.toStr

/-! ## String primitives -/

/-- The characters of `hay.replace(pat, rep)` for a string pattern: only the
first occurrence of `pat` is replaced (`rep` is taken literally, which is what
JavaScript does when `rep` has no `$`). -/
def replaceFirstChars (pat rep : List Char) : List Char → List Char
  | [] => if pat.isPrefixOf [] then rep else []
  | c :: cs =>
    if pat.isPrefixOf (c :: cs) then rep ++ (c :: cs).drop pat.length
    else c :: replaceFirstChars pat rep cs

/-- The call `hay.replace(pat, rep)` with a string pattern. -/
def jsReplace (hay pat rep : String) : String :=
  ⟨replaceFirstChars pat.data rep.data hay.data⟩

/-- The characters of the pieces of `s.split(sep)` for a one-character
separator. -/
def splitChars (sep : Char) : List Char → List (List Char)
  | [] => [[]]
  | c :: cs =>
    if c = sep then [] :: splitChars sep cs
    else
      match splitChars sep cs with
      | [] => [[c]]
      | piece :: pieces => (c :: piece) :: pieces

/-- The call `s.split(sep)` for a one-character separator. -/
def jsSplit (s : String) (sep : Char) : List String :=
  (splitChars sep s.data).map String.mk

/-! ## Collaborators, requests and responses -/

/-- The object passed to `transporter.sendEmail`. -/
structure Message where
  From : String
  To : Option Json
  Subject : String
  TextBody : String
  HtmlBody : String
  MessageStream : String

/-- The `user` of `auth.getUser`; `email` may be undefined. -/
structure User where
  email : Option String

/-- What `await supabaseClient.auth.getUser(token)` does: it resolves to
`{ data: { user }, error }` (`none` is `null`), or it rejects. -/
inductive VerifyOutcome where
  | returned (user : Option User) (error : Option String) : VerifyOutcome
  | raised (e : Thrown) : VerifyOutcome

/-- The collaborators and configuration of one invocation. -/
structure Env where
  /-- The identity verifier, by token. -/
  getUser : String → VerifyOutcome
  /-- The transport provider: acknowledgement or rejection of a message. -/
  send : Message → Except Thrown Json
  /-- The value of `Deno.env.get("SUPABASE_SMTP_SENDER")`. -/
  smtpSender : Option String

/-- What the handler reads of a `Request`: `headers.get("Authorization")` and
the outcome of `req.json()`. -/
structure Request where
  authorization : Option String
  json : Except Thrown Json

/-- A `Response`: status, `Content-Type` header and the value given to
`JSON.stringify`. -/
structure Response where
  status : Nat
  contentType : String
  body : Json

/-- A call made to a collaborator. -/
inductive Effect where
  | getUser (token : String) : Effect
  | sendEmail (msg : Message) : Effect

/-- A finished or aborted computation together with the collaborator calls it
made, oldest first. -/
structure Outcome (α : Type) where
  result : Except Thrown α
  log : List Effect

/-- The body `{ error: reason }`. -/
def errorBody (reason : String) : Json :=
  .obj [("error", .str reason)]

/-- The body `{ success: true }`. -/
def successBody : Json :=
  .obj [("success", .bool true)]

/-- The `new Response(JSON.stringify(body), { status, headers })` of the
handler. -/
def jsonResponse (status : Nat) (body : Json) : Response :=
  { status := status, contentType := "application/json", body := body }

/-- A `case "label":` test of the `switch`: strict equality with a string. -/
def strictEqStr (v : Option Json) (label : String) : Bool :=
  match v with
  | some (.str s) => s = label
  | _ => false

/-! ## The transport adapter and the three renderers -/

/-- The expression `Deno.env.get("SUPABASE_SMTP_SENDER") || "no-reply@scitech.support"`. -/
def senderAddress (env : Env) : String :=
  match env.smtpSender with
  | none => "no-reply@scitech.support"
  | some configured => if configured = "" then "no-reply@scitech.support" else configured

/-- The object literal built by `sendEmail`. -/
def outgoing (env : Env) (toAddr : Option Json) (subject text html : String) : Message :=
  { From := senderAddress env
    To := toAddr
    Subject := subject
    TextBody := text
    HtmlBody := html
    MessageStream := "outbound" }

/-- The function `sendEmail`: one call of the transport; a rejection is logged
and thrown again. -/
def sendEmail (env : Env) (toAddr : Option Json) (subject text html : String) : Outcome Json :=
  match env.send (outgoing env toAddr subject text html) with
  | .ok response => ⟨.ok response, [.sendEmail (outgoing env toAddr subject text html)]⟩
  | .error error => ⟨.error error, [.sendEmail (outgoing env toAddr subject text html)]⟩

/-- The `subject` of `sendCommentNotification`. -/
def commentSubject (ticketNo : String) : String :=
  "New comment on your support ticket #" ++ ticketNo

/-- The `text` of `sendCommentNotification`. -/
def commentText (commenterName ticketNo comment ticketUrl : String) : String :=
  "Hello,\n" ++
    "\n" ++
    commenterName ++
    " has added a new comment to your support ticket #" ++
    ticketNo ++
    ":\n" ++
    "\n" ++
    "\"" ++
    comment ++
    "\"\n" ++
    "\n" ++
    "View and respond to this ticket here: " ++
    ticketUrl ++
    "\n" ++
    "\n" ++
    "Best regards,\n" ++
    "SciTech Support Team"

/-- The `html` of `sendCommentNotification`. -/
def commentHtml (commenterName ticketNo comment ticketUrl : String) : String :=
  "\n" ++
    "    <div style=\"font-family: Arial, sans-serif; max-width: 600px; margin: 0 auto;\">\n" ++
    "      <h2 style=\"color: #333;\">New comment on your support ticket #" ++
    ticketNo ++
    "</h2>\n" ++
    "      <p>Hello,</p>\n" ++
    "      <p><strong>" ++
    commenterName ++
    "</strong> has added a new comment to your support ticket:</p>\n" ++
    "      <div style=\"background: #f5f5f5; padding: 15px; border-left: 4px solid #2196F3; margin: 15px 0;\">\n" ++
    "        " ++
    comment ++
    "\n" ++
    "      </div>\n" ++
    "      <p>View and respond to this ticket here: <a href=\"" ++
    ticketUrl ++
    "\">" ++
    ticketUrl ++
    "</a></p>\n" ++
    "      <p>Best regards,<br>SciTech Support Team</p>\n" ++
    "    </div>\n" ++
    "  "

/-- The expression `commenterEmail.split("@")[0]`. -/
def commenterNameOf (commenterEmail : String) : String :=
  (jsSplit commenterEmail '@').headD ""

/-- The function `sendCommentNotification`.  The template literals convert
`ticketNo`, `comment` and `ticketUrl` with `ToString`, which can throw before
`sendEmail` is reached. -/
def sendCommentNotification (env : Env) (recipient ticketNo comment ticketUrl : Option Json)
    (commenterEmail : String) : Outcome Json :=
  match toStr ticketNo with
  | .error e => ⟨.error e, []⟩
  | .ok ticketNoS =>
    match toStr comment with
    | .error e => ⟨.error e, []⟩
    | .ok commentS =>
      match toStr ticketUrl with
      | .error e => ⟨.error e, []⟩
      | .ok ticketUrlS =>
        sendEmail env recipient (commentSubject ticketNoS)
          (commentText (commenterNameOf commenterEmail) ticketNoS commentS ticketUrlS)
          (commentHtml (commenterNameOf commenterEmail) ticketNoS commentS ticketUrlS)

/-- The `subject` of `sendWelcomeEmail`. -/
def welcomeSubject : String :=
  "Welcome to SciTech Support"

/-- The `text` of `sendWelcomeEmail`. -/
def welcomeText (fullName : String) : String :=
  "Hi " ++
    fullName ++
    ",\n" ++
    "\n" ++
    "Your account has been created successfully!\n" ++
    "\n" ++
    "You can now log in to track your support requests.\n" ++
    "\n" ++
    "If you forgot your password, you can reset it from the login page.\n" ++
    "\n" ++
    "Best regards,\n" ++
    "SciTech Support Team"

/-- The `html` of `sendWelcomeEmail`. -/
def welcomeHtml (fullName : String) : String :=
  "\n" ++
    "    <div style=\"font-family: Arial, sans-serif; max-width: 600px; margin: 0 auto;\">\n" ++
    "      <h2 style=\"color: #333;\">Welcome to SciTech Support</h2>\n" ++
    "      <p>Hi " ++
    fullName ++
    ",</p>\n" ++
    "      <p>Your account has been created successfully!</p>\n" ++
    "      <p>You can now log in to track your support requests.</p>\n" ++
    "      <p>If you forgot your password, you can reset it from the login page.</p>\n" ++
    "      <p>Best regards,<br>SciTech Support Team</p>\n" ++
    "    </div>\n" ++
    "  "

/-- The function `sendWelcomeEmail`. -/
def sendWelcomeEmail (env : Env) (recipient fullName : Option Json) : Outcome Json :=
  match toStr fullName with
  | .error e => ⟨.error e, []⟩
  | .ok fullNameS =>
    sendEmail env recipient welcomeSubject (welcomeText fullNameS) (welcomeHtml fullNameS)

/-- The `subject` of `sendPasswordResetEmail`. -/
def resetSubject : String :=
  "Password Reset Request"

/-- The `text` of `sendPasswordResetEmail`. -/
def resetText (resetLink : String) : String :=
  "We received a password reset request for your SciTech Support account.\n" ++
    "\n" ++
    "If you didn't request this, please ignore this email.\n" ++
    "\n" ++
    "Otherwise, use this link to reset your password:\n" ++
    resetLink ++
    "\n" ++
    "\n" ++
    "This link expires in 24 hours."

/-- The `html` of `sendPasswordResetEmail`. -/
def resetHtml (resetLink : String) : String :=
  "\n" ++
    "    <div style=\"font-family: Arial, sans-serif; max-width: 600px; margin: 0 auto;\">\n" ++
    "      <h2 style=\"color: #333;\">Password Reset Request</h2>\n" ++
    "      <p>We received a password reset request for your SciTech Support account.</p>\n" ++
    "      <p>If you didn't request this, please ignore this email.</p>\n" ++
    "      <p>Otherwise, use the button below to reset your password:</p>\n" ++
    "      <a href=\"" ++
    resetLink ++
    "\" style=\"display: inline-block; background: #2196F3; color: white; padding: 10px 20px; text-decoration: none; border-radius: 4px; margin: 15px 0;\">Reset Password</a>\n" ++
    "      <p>This link expires in 24 hours.</p>\n" ++
    "    </div>\n" ++
    "  "

/-- The function `sendPasswordResetEmail`. -/
def sendPasswordResetEmail (env : Env) (recipient resetLink : Option Json) : Outcome Json :=
  match toStr resetLink with
  | .error e => ⟨.error e, []⟩
  | .ok resetLinkS =>
    sendEmail env recipient resetSubject (resetText resetLinkS) (resetHtml resetLinkS)

/-! ## The request handler -/

/-- The first property read of the handler, `requestData.type`: reading a
property of `null` throws, any other parsed value yields the member or
`undefined`. -/
def readType : Json → Except Thrown (Option Json)
  | .null => .error (nullReadError "type")
  | requestData => .ok (requestData.field "type")

/-- The bearer token `req.headers.get("Authorization")?.replace("Bearer ", "")`;
`none` is `undefined`. -/
def tokenOf (req : Request) : Option String :=
  req.authorization.map (fun header => jsReplace header "Bearer " "")

/-- An awaited send followed by `break` and the final
`new Response(JSON.stringify({ success: true }), ..)`, whose status defaults
to 200. -/
def thenSuccess (sent : Outcome Json) : Outcome Response :=
  match sent.result with
  | .ok _ => ⟨.ok (jsonResponse 200 successBody), sent.log⟩
  | .error e => ⟨.error e, sent.log⟩

/-- The `switch (requestData.type)` of the handler, entered with a truthy
`type` on a non-null `requestData`. -/
def dispatch (env : Env) (user : User) (requestData : Json) : Outcome Response :=
  if strictEqStr (requestData.field "type") "comment_notification" then
    if !truthy (requestData.field "recipient") || !truthy (requestData.field "ticket_no") ||
        !truthy (requestData.field "comment") || !truthy (requestData.field "ticket_url") then
      ⟨.ok (jsonResponse 400 (errorBody "Missing required fields for comment notification")), []⟩
    else
      thenSuccess (sendCommentNotification env (requestData.field "recipient")
        (requestData.field "ticket_no") (requestData.field "comment")
        (requestData.field "ticket_url") (user.email.getD ""))
  else if strictEqStr (requestData.field "type") "welcome_email" then
    if !truthy (requestData.field "to") then
      ⟨.ok (jsonResponse 400 (errorBody "Recipient email is required")), []⟩
    else
      thenSuccess (sendWelcomeEmail env (requestData.field "to") (requestData.field "full_name"))
  else if strictEqStr (requestData.field "type") "password_reset" then
    if !truthy (requestData.field "to") || !truthy (requestData.field "reset_link") then
      ⟨.ok (jsonResponse 400 (errorBody "Missing required fields for password reset")), []⟩
    else
      thenSuccess (sendPasswordResetEmail env (requestData.field "to")
        (requestData.field "reset_link"))
  else
    ⟨.ok (jsonResponse 400 (errorBody "Invalid email type")), []⟩

/-- The part of the handler that follows a successful `getUser`: parse the
body, require a `type`, dispatch. -/
def handleBody (env : Env) (user : User) (req : Request) : Outcome Response :=
  match req.json with
  | .error e => ⟨.error e, []⟩
  | .ok requestData =>
    match readType requestData with
    | .error e => ⟨.error e, []⟩
    | .ok type =>
      if !truthy type then ⟨.ok (jsonResponse 400 (errorBody "Email type is required")), []⟩
      else dispatch env user requestData

/-- The `try` block of the handler. -/
def handlerTry (env : Env) (req : Request) : Outcome Response :=
  match tokenOf req with
  | none => ⟨.ok (jsonResponse 401 (errorBody "Authorization token required")), []⟩
  | some token =>
    if token = "" then
      ⟨.ok (jsonResponse 401 (errorBody "Authorization token required")), []⟩
    else
      match env.getUser token with
      | .raised e => ⟨.error e, [.getUser token]⟩
      | .returned _ (some _) =>
        ⟨.ok (jsonResponse 401 (errorBody "Invalid authorization token")), [.getUser token]⟩
      | .returned none none =>
        ⟨.ok (jsonResponse 401 (errorBody "Invalid authorization token")), [.getUser token]⟩
      | .returned (some user) none =>
        ⟨(handleBody env user req).result, .getUser token :: (handleBody env user req).log⟩

/-- What one invocation of the handler does: the response it returns and the
collaborator calls it made. -/
structure Run where
  response : Response
  log : List Effect

/-- The handler given to `serve`: the `try` block, and the `catch` block that
turns anything thrown into a 500 response. -/
def handler (env : Env) (req : Request) : Run :=
  match (handlerTry env req).result with
  | .ok response => ⟨response, (handlerTry env req).log⟩
  | .error error => ⟨jsonResponse 500 (errorBody error.report), (handlerTry env req).log⟩

/-! ## Observations on a run -/

/-- The messages given to the transport, oldest first. -/
def sentMessages : List Effect → List Message
  | [] => []
  | .sendEmail msg :: rest => msg :: sentMessages rest
  | .getUser _ :: rest => sentMessages rest

/-- The tokens given to the identity verifier, oldest first. -/
def verifiedTokens : List Effect → List String
  | [] => []
  | .getUser token :: rest => token :: verifiedTokens rest
  | .sendEmail _ :: rest => verifiedTokens rest

/-- The string `hay` contains `needle` as a contiguous substring. -/
def Contains (hay needle : String) : Prop :=
  ∃ before after : String, hay = before ++ needle ++ after

/-! ## Vocabulary of the properties -/

/-- The request carries a non-empty bearer token which the identity verifier
accepts, resolving it to `user` without error. -/
def Authenticated (env : Env) (req : Request) (token : String) (user : User) : Prop :=
  tokenOf req = some token ∧ token ≠ "" ∧ env.getUser token = .returned (some user) none

/-- A verifier and a transport used to exercise the handler: the token
`"good"` belongs to `alice.smith@uni.canberra.edu.au`, every other token is
rejected; the transport acknowledges every message. -/
def sampleEnv : Env :=
  { getUser := fun token =>
      if token = "good" then .returned (some ⟨some "alice.smith@uni.canberra.edu.au"⟩) none
      else .returned none (some "invalid JWT")
    send := fun _ => .ok .null
    smtpSender := none }

/-- The user behind the token `"good"` of `sampleEnv`. -/
def sampleUser : User :=
  ⟨some "alice.smith@uni.canberra.edu.au"⟩

/-- A request with the header `Authorization: Bearer good` and a parsed body. -/
def sampleRequest (requestData : Json) : Request :=
  { authorization := some "Bearer good", json := .ok requestData }

/-- The three recognised kinds of notification. -/
inductive Kind where
  | commentNotification : Kind
  | welcomeEmail : Kind
  | passwordReset : Kind
  deriving DecidableEq, Repr

/-- The value of `type` that selects a kind: the `case` labels of the handler. -/
def Kind.label : Kind → String
  | .commentNotification => "comment_notification"
  | .welcomeEmail => "welcome_email"
  | .passwordReset => "password_reset"

/-- The required fields of each kind, as tabulated in the specification
(section 6, "Request body fields by kind"). -/
def requiredFields : Kind → List String
  | .commentNotification => ["recipient", "ticket_no", "comment", "ticket_url"]
  | .welcomeEmail => ["to"]
  | .passwordReset => ["to", "reset_link"]

/-- The message `msg` is the complete rendering of the request `requestData`
of kind `kind` made by `user`: its recipient is the request's recipient field
and its subject, text and HTML are the templates of that kind filled with the
`ToString` images of the request's fields. -/
def IsRenderingOf (env : Env) (user : User) (requestData : Json) (kind : Kind)
    (msg : Message) : Prop :=
  match kind with
  | .commentNotification =>
    ∃ ticketNo comment ticketUrl : String,
      toStr (requestData.field "ticket_no") = .ok ticketNo ∧
      toStr (requestData.field "comment") = .ok comment ∧
      toStr (requestData.field "ticket_url") = .ok ticketUrl ∧
      msg = outgoing env (requestData.field "recipient") (commentSubject ticketNo)
        (commentText (commenterNameOf (user.email.getD "")) ticketNo comment ticketUrl)
        (commentHtml (commenterNameOf (user.email.getD "")) ticketNo comment ticketUrl)
  | .welcomeEmail =>
    ∃ fullName : String,
      toStr (requestData.field "full_name") = .ok fullName ∧
      msg = outgoing env (requestData.field "to") welcomeSubject (welcomeText fullName)
        (welcomeHtml fullName)
  | .passwordReset =>
    ∃ resetLink : String,
      toStr (requestData.field "reset_link") = .ok resetLink ∧
      msg = outgoing env (requestData.field "to") resetSubject (resetText resetLink)
        (resetHtml resetLink)

/-- The three ways a `try` block can end, by what happened at the transport:
one accepted send and the success response; one rejected send, thrown on; or
no send at all, with a thrown value or a 400/401 error response. -/
def Classified (env : Env) (o : Outcome Response) : Prop :=
  (∃ msg ack, sentMessages o.log = [msg] ∧ env.send msg = .ok ack ∧
      o.result = .ok (jsonResponse 200 successBody)) ∨
  (∃ msg e, sentMessages o.log = [msg] ∧ env.send msg = .error e ∧ o.result = .error e) ∨
  (sentMessages o.log = [] ∧
    ((∃ e, o.result = .error e) ∨
      ∃ status reason, (status = 400 ∨ status = 401) ∧
        o.result = .ok (jsonResponse status (errorBody reason))))

/-- A renderer either throws before the transport is reached or ends in
`sendEmail`. -/
def SendShape (env : Env) (o : Outcome Json) : Prop :=
  (∃ e, o = ⟨.error e, []⟩) ∨
    ∃ toAddr subject text html, o = sendEmail env toAddr subject text html

/-- A welcome request for Bob, named "Bob Brown". -/
def sampleWelcomeBody : Json :=
  .obj [("type", .str "welcome_email"), ("to", .str "bob@canberra.edu.au"),
    ("full_name", .str "Bob Brown")]

/-- A password-reset request for Bob. -/
def sampleResetBody : Json :=
  .obj [("type", .str "password_reset"), ("to", .str "bob@canberra.edu.au"),
    ("reset_link", .str "https://x/reset?t=abc")]

/-- The environment `sampleEnv` with a transport that rejects every message
with the error message `"Inactive recipient"`. -/
def rejectingEnv : Env :=
  { sampleEnv with send := fun _ => .error (.error "Inactive recipient") }

/-- The `error` text with which the case of each kind answers a request that
fails its field guard. -/
def missingFieldReason : Kind → String
  | .commentNotification => "Missing required fields for comment notification"
  | .welcomeEmail => "Recipient email is required"
  | .passwordReset => "Missing required fields for password reset"

/-- The call with which the case of each kind renders and sends, once its field
guard is passed. -/
def sendFor (env : Env) (user : User) (requestData : Json) : Kind → Outcome Json
  | .commentNotification =>
    sendCommentNotification env (requestData.field "recipient") (requestData.field "ticket_no")
      (requestData.field "comment") (requestData.field "ticket_url") (user.email.getD "")
  | .welcomeEmail =>
    sendWelcomeEmail env (requestData.field "to") (requestData.field "full_name")
  | .passwordReset =>
    sendPasswordResetEmail env (requestData.field "to") (requestData.field "reset_link")

/-- A comment notification about ticket `LAB-7`. -/
def sampleCommentBody : Json :=
  .obj [("type", .str "comment_notification"), ("recipient", .str "bob@canberra.edu.au"),
    ("ticket_no", .str "LAB-7"), ("comment", .str "Badge <b>ready</b> & waiting"),
    ("ticket_url", .str "https://x/t/7")]

/-- The comment notification `sampleCommentBody` without its `recipient`. -/
def commentBodyWithoutRecipient : Json :=
  .obj [("type", .str "comment_notification"),
    ("ticket_no", .str "LAB-7"), ("comment", .str "Badge <b>ready</b> & waiting"),
    ("ticket_url", .str "https://x/t/7")]

/-- The comment notification `sampleCommentBody` without its `ticket_url`. -/
def commentBodyWithoutUrl : Json :=
  .obj [("type", .str "comment_notification"), ("recipient", .str "bob@canberra.edu.au"),
    ("ticket_no", .str "LAB-7"), ("comment", .str "Badge <b>ready</b> & waiting")]

/-- A welcome request for Bob that carries no `full_name`. -/
def welcomeBodyWithoutName : Json :=
  .obj [("type", .str "welcome_email"), ("to", .str "bob@canberra.edu.au")]

/-- The environment `sampleEnv` with an identity provider that cannot be
reached: `getUser` rejects with the error message `"fetch failed"`. -/
def unreachableVerifierEnv : Env :=
  { sampleEnv with getUser := fun _ => .raised (.error "fetch failed") }

/-- A verified caller without an email address. -/
def anonymousUser : User :=
  ⟨none⟩

/-- The environment `sampleEnv` whose verifier resolves every token to
`anonymousUser`. -/
def anonymousCallerEnv : Env :=
  { sampleEnv with getUser := fun _ => .returned (some anonymousUser) none }

/-- HTTP whitespace: tab, line feed, carriage return and space. -/
def isHttpWhitespace (c : Char) : Bool :=
  c = '\t' || c = '\n' || c = '\r' || c = ' '

/-- The value `headers.get` returns for a header that was sent with the value
`sent`: the `Headers` object keeps header values with their leading and
trailing HTTP whitespace stripped. -/
def normalizeHeaderValue (sent : String) : String :=
  ⟨((sent.data.dropWhile isHttpWhitespace).reverse.dropWhile isHttpWhitespace).reverse⟩

/-- The request the handler sees when the `Authorization` header is sent with
the value `sent` (`none`: the header is not sent). -/
def receivedRequest (sent : Option String) (json : Except Thrown Json) : Request :=
  { authorization := sent.map normalizeHeaderValue, json := json }

end SendEmail

/-!
# Front end: decisions of the React components

Embedding of the pure decisions in `src/SupportRequestApp.jsx`,
`src/AuthConfirm.jsx` and `src/RequestDetails.jsx`: which form fields are
checked, which tickets a filter selects, how an email is judged, what status
the confirmation page ends in, and which comments string is stored.  Component
state, rendering and network calls are outside the model; the results of
collaborator calls are parameters.
-/

namespace SupportApp

/-! ## Shared primitives -/

/-- The call `s.endsWith(suffix)`. -/
def jsEndsWith (s suffix : String) : Bool :=
  suffix.data.isSuffixOf s.data

/-- Truthiness of a value that is `null`/`undefined` (`none`) or a string. -/
def truthyText : Option String → Bool
  | none => false
  | some s => s ≠ ""

/-! ## The LAB access form (`SupportRequestApp.jsx`) -/

/-- The `fixed` attribute of a form field, when present: `true`/`false`, a
string, or a function of the user's email. -/
inductive FixedAttr where
  | flag (b : Bool) : FixedAttr
  | value (s : String) : FixedAttr
  | rule (f : Option String → Bool) : FixedAttr

/-- An entry of a form-field table; absent attributes are `none`. -/
structure FormField where
  label : String
  name : String
  type : String
  auto : Option Bool
  fixed : Option FixedAttr

/-- Truthiness of `f.fixed`: a function is truthy. -/
def truthyFixed : Option FixedAttr → Bool
  | none => false
  | some (.flag b) => b
  | some (.value s) => s ≠ ""
  | some (.rule _) => true

/-- Truthiness of `f.auto`. -/
def truthyAuto : Option Bool → Bool
  | none => false
  | some b => b

/-- The `fixed` function of the Full Name field:
`(email) => !email?.endsWith("@uni.canberra.edu.au")`. -/
def fullNameFixed (email : Option String) : Bool :=
  match email with
  | none => true
  | some e => !jsEndsWith e "@uni.canberra.edu.au"

/-- The Full Name entry of `capstoneLabAccessFields`. -/
def fullNameField : FormField :=
  { label := "Full Name", name := "fullName", type := "text", auto := none,
    fixed := some (.rule fullNameFixed) }

/-- The table `capstoneLabAccessFields`. -/
def capstoneLabAccessFields : List FormField :=
  [ { label := "Submission Date", name := "submissionDate", type := "text", auto := some true,
      fixed := none },
    fullNameField,
    { label := "University Email", name := "email", type := "email", auto := none,
      fixed := some (.flag true) },
    { label := "Badge File", name := "badgeFile", type := "file", auto := none, fixed := none },
    { label := "Room No", name := "roomNo", type := "text", auto := none,
      fixed := some (.value "6B39") } ]

/-- A value held in `formData`: absent, a string, or a `File` (by its name). -/
inductive FormValue where
  | undefined : FormValue
  | text (s : String) : FormValue
  | file (fileName : String) : FormValue

/-- Truthiness of a form value. -/
def FormValue.truthy : FormValue → Bool
  | .undefined => false
  | .text s => s ≠ ""
  | .file _ => true

/-- The test `v instanceof File`. -/
def FormValue.isFile : FormValue → Bool
  | .file _ => true
  | _ => false

/-- The fields `areAllFieldsFilled` looks at:
`capstoneLabAccessFields.filter((f) => !f.fixed && !f.auto)`. -/
def checkedFields : List FormField :=
  capstoneLabAccessFields.filter (fun f => !truthyFixed f.fixed && !truthyAuto f.auto)

/-- The function `areAllFieldsFilled`, for the form data `formData` (a lookup by
field name). -/
def areAllFieldsFilled (formData : String → FormValue) : Bool :=
  checkedFields.all (fun field =>
    (formData field.name).truthy && (field.type != "file" || (formData field.name).isFile))

/-- The guard of `handleSubmit` for a LAB Access Request: the dialog error it
raises, if any. -/
def fillCheckError (formData : String → FormValue) : Option String :=
  if !areAllFieldsFilled formData then some "You need to fill all the fields." else none

/-- Whether the form renders a field read-only:
`field.fixed === true || (typeof field.fixed === 'function' && field.fixed(formData.email))`. -/
def isReadOnly (field : FormField) (email : Option String) : Bool :=
  match field.fixed with
  | some (.flag true) => true
  | some (.rule f) => f email
  | _ => false

/-! ## Ticket filters and status labels (`SupportRequestApp.jsx`) -/

/-- The value of a ticket's `Done` column: `null`, a boolean, or anything else
(for instance `undefined`). -/
inductive DoneValue where
  | null : DoneValue
  | bool (b : Bool) : DoneValue
  | other : DoneValue
  deriving DecidableEq, Repr

/-- The fields of a ticket that the filters and labels read. -/
structure Ticket where
  ticket_no : String
  Done : DoneValue
  assigned_to : Option String
  deriving DecidableEq, Repr

/-- The callback of `tickets.filter` in `filterTickets`. -/
def filterKeeps (filter : String) (ticket : Ticket) : Bool :=
  if filter = "backlog" then ticket.Done = .null && !truthyText ticket.assigned_to
  else if filter = "completed" then ticket.Done = .bool true
  else if filter = "rejected" then ticket.Done = .bool false
  else true

/-- The function `filterTickets`. -/
def filterTickets (tickets : List Ticket) (filter : String) : List Ticket :=
  if filter = "all" then tickets else tickets.filter (filterKeeps filter)

/-- The status label of the admin dashboard. -/
def statusLabel (ticket : Ticket) : String :=
  if ticket.Done = .bool true then "Completed"
  else if ticket.Done = .bool false then "Rejected"
  else if truthyText ticket.assigned_to then "Assigned"
  else "Backlog"

/-! ## University email checks (`SupportRequestApp.jsx`, `RequestDetails.jsx`) -/

/-- An argument of `isValidUniEmail`: a string, or a value of any other type. -/
inductive EmailArg where
  | text (s : String) : EmailArg
  | notString : EmailArg

/-- The function `isValidUniEmail`. -/
def isValidUniEmail : EmailArg → Bool
  | .text email => jsEndsWith email "@canberra.edu.au" || jsEndsWith email "@uni.canberra.edu.au"
  | .notString => false

/-- The `allowed` of `handleSignup` in `RequestDetails.jsx`; the handler goes on
exactly when it is true. -/
def signupAllowed (email : String) : Bool :=
  jsEndsWith email "@uni.canberra.edu.au" || jsEndsWith email "@canberra.edu.au"

/-- The guard of `handlePasswordLogin`: true when the login is refused with
"University email required". -/
def passwordLoginRefused (email : String) : Bool :=
  !jsEndsWith email "@uni.canberra.edu.au" && !jsEndsWith email "@canberra.edu.au"

/-- The guard of `handleAssignTicket`: true when the assignment is refused with
"University email required". -/
def assignTicketRefused (email : String) : Bool :=
  truthyText (some email) && !jsEndsWith email "@uni.canberra.edu.au" &&
    !jsEndsWith email "@canberra.edu.au"

/-- The string `s` ends with `suffix`. -/
def EndsWith (s suffix : String) : Prop :=
  ∃ before : String, s = before ++ suffix

/-! ## Email confirmation (`AuthConfirm.jsx`) -/

/-- What `verifyEmail` reads from the URL: `searchParams.get` of `token`,
`type` and `error`; `none` is `null`. -/
structure SearchParams where
  token : Option String
  type : Option String
  error : Option String

/-- What `await supabase.auth.verifyOtp(..)` does: it resolves to `{ error }`,
given by the error's message (`none` is `null`), or it rejects with a value of
the given message. -/
inductive OtpOutcome where
  | returned (verificationError : Option String) : OtpOutcome
  | raised (message : String) : OtpOutcome

/-- The component state `status`. -/
structure Status where
  loading : Bool
  success : Bool
  message : String
  deriving DecidableEq, Repr

/-- What one run of `verifyEmail` does: the last status it sets, the token
hashes it gave to `verifyOtp`, and whether it stored `email_verified`. -/
structure ConfirmRun where
  status : Status
  otpCalls : List String
  stored : Bool

/-- The status set by the catch block for an error of the given message. -/
def failure (message : String) : Status :=
  { loading := false, success := false, message := message }

/-- The function `verifyEmail`, for a given `verifyOtp`.  The call
`localStorage.setItem` is recorded and taken not to throw. -/
def verifyEmail (verifyOtp : String → OtpOutcome) (p : SearchParams) : ConfirmRun :=
  if truthyText p.error then
    ⟨failure (if p.error = some "access_denied" then "Email link is invalid or has expired"
      else "Verification failed"), [], false⟩
  else
    match p.token with
    | none => ⟨{ loading := false, success := true, message := "Access granted" }, [], true⟩
    | some token =>
      if token = "" || decide (p.type ≠ some "signup") then
        ⟨{ loading := false, success := true, message := "Access granted" }, [], true⟩
      else
        match verifyOtp token with
        | .returned none =>
          ⟨{ loading := false, success := true, message := "Email verified successfully!" },
            [token], true⟩
        | .returned (some message) => ⟨failure message, [token], false⟩
        | .raised message => ⟨failure message, [token], false⟩

/-! ## Adding a comment (`RequestDetails.jsx`) -/

/-- The characters `String.prototype.trim` strips: WhiteSpace and
LineTerminator code points. -/
def jsIsTrimmed (c : Char) : Bool :=
  c.val.toNat ∈ [0x09, 0x0A, 0x0B, 0x0C, 0x0D, 0x20, 0xA0, 0x1680, 0x2000, 0x2001, 0x2002,
    0x2003, 0x2004, 0x2005, 0x2006, 0x2007, 0x2008, 0x2009, 0x200A, 0x2028, 0x2029, 0x202F,
    0x205F, 0x3000, 0xFEFF]

/-- The call `s.trim()`. -/
def jsTrim (s : String) : String :=
  ⟨((s.data.dropWhile jsIsTrimmed).reverse.dropWhile jsIsTrimmed).reverse⟩

/-- The expression `user.email.split("@")[0]`. -/
def usernameOf (email : String) : String :=
  (SendEmail.jsSplit email '@').headD ""

/-- The template literal `commentToAdd` of `handleAddComment`. -/
def commentToAdd (comments : Option String) (timestamp username newComment : String) : String :=
  (if truthyText comments then comments.getD "" ++ "\n" else "") ++
    "[" ++ timestamp ++ "] @" ++ username ++ ": " ++ newComment

/-- What `handleAddComment` works with: the freshly read `currentRequest?.Done`,
the comment typed, the signed-in user's email (`none` when there is no user),
the ticket's `comments` and the formatted time. -/
structure CommentAttempt where
  currentDone : DoneValue
  newComment : String
  userEmail : Option String
  comments : Option String
  timestamp : String

/-- The function `handleAddComment`: the value it writes to the `comments`
column, or `none` when it returns before the update. -/
def handleAddComment (a : CommentAttempt) : Option String :=
  if a.currentDone = .bool false then none
  else if jsTrim a.newComment = "" then none
  else
    match a.userEmail with
    | none => none
    | some email => some (commentToAdd a.comments a.timestamp (usernameOf email) a.newComment)

/-- One entry of the comments string, as the specification writes it:
`[timestamp] @username: comment`. -/
def commentEntry (timestamp username newComment : String) : String :=
  "[" ++ timestamp ++ "] @" ++ username ++ ": " ++ newComment

/-- A second comment on a ticket that already has one. -/
def sampleAttempt : CommentAttempt :=
  { currentDone := .null, newComment := "Badge is ready",
    userEmail := some "tech@canberra.edu.au",
    comments := some "[2026-11-05 09:00:00] @alice.smith: Please check",
    timestamp := "2026-11-06 14:03:22" }

/-- A confirmation link whose `error` parameter is present and empty,
`?error=`. -/
def emptyErrorParams : SearchParams :=
  { token := none, type := none, error := some "" }

/-- A pending ticket that has an assignee. -/
def assignedPendingTicket : Ticket :=
  { ticket_no := "AliceSmith_1730000000000", Done := .null,
    assigned_to := some "tech@canberra.edu.au" }

/-- The form data of a student with an `@uni.canberra.edu.au` email who chose
a badge file and left Full Name empty. -/
def emptyNameForm (name : String) : FormValue :=
  if name = "fullName" then .text ""
  else if name = "email" then .text "u3141592@uni.canberra.edu.au"
  else if name = "badgeFile" then .file "badge.png"
  else if name = "roomNo" then .text "6B39"
  else .undefined

end SupportApp

namespace SendEmail

/-! ## Basic facts -/

theorem strictEqStr_iff (v : Option Json) (label : String) :
    strictEqStr v label = true ↔ v = some (.str label) := by
  unfold strictEqStr
  split
  · simp
  · rename_i h
    simp only [Bool.false_eq_true, false_iff]
    intro hv
    exact h label hv

theorem readType_of_ne_null {requestData : Json} (h : requestData ≠ .null) :
    readType requestData = .ok (requestData.field "type") := by
  cases requestData <;> first | rfl | exact absurd rfl h

theorem ne_null_of_field {requestData : Json} {key : String} {v : Json}
    (h : requestData.field key = some v) : requestData ≠ .null := by
  intro hnull
  subst hnull
  simp [Json.field] at h

theorem handlerTry_of_authenticated {env : Env} {req : Request} {token : String} {user : User}
    (h : Authenticated env req token user) :
    handlerTry env req =
      ⟨(handleBody env user req).result, .getUser token :: (handleBody env user req).log⟩ := by
  obtain ⟨htoken, hne, hget⟩ := h
  unfold handlerTry
  rw [htoken]
  simp only [hne, if_false, hget]

theorem sample_authenticated (requestData : Json) :
    Authenticated sampleEnv (sampleRequest requestData) "good" sampleUser :=
  ⟨rfl, by decide, rfl⟩

theorem handleBody_of_truthy_type {env : Env} {user : User} {req : Request} {requestData : Json}
    (hjson : req.json = .ok requestData) (htype : truthy (requestData.field "type") = true) :
    handleBody env user req = dispatch env user requestData := by
  have hobj : requestData ≠ .null := by
    intro hnull
    subst hnull
    simp [Json.field, truthy] at htype
  unfold handleBody
  rw [hjson]
  simp only [readType_of_ne_null hobj, htype, Bool.not_true, Bool.false_eq_true, if_false]

theorem handler_of_dispatch {env : Env} {req : Request} {token : String} {user : User}
    {requestData : Json} (hauth : Authenticated env req token user)
    (hjson : req.json = .ok requestData) (htype : truthy (requestData.field "type") = true) :
    handlerTry env req =
      ⟨(dispatch env user requestData).result,
        .getUser token :: (dispatch env user requestData).log⟩ := by
  rw [handlerTry_of_authenticated hauth, handleBody_of_truthy_type hjson htype]

/-! ## Shape of the send functions -/

theorem sendEmail_log (env : Env) (toAddr : Option Json) (subject text html : String) :
    (sendEmail env toAddr subject text html).log =
      [.sendEmail (outgoing env toAddr subject text html)] := by
  unfold sendEmail
  split <;> rfl

theorem sendEmail_result (env : Env) (toAddr : Option Json) (subject text html : String) :
    (sendEmail env toAddr subject text html).result =
      env.send (outgoing env toAddr subject text html) := by
  unfold sendEmail
  split <;> simp [*]

theorem sendCommentNotification_shape (env : Env)
    (recipient ticketNo comment ticketUrl : Option Json) (commenterEmail : String) :
    SendShape env (sendCommentNotification env recipient ticketNo comment ticketUrl commenterEmail) := by
  unfold sendCommentNotification
  split
  · exact Or.inl ⟨_, rfl⟩
  · split
    · exact Or.inl ⟨_, rfl⟩
    · split
      · exact Or.inl ⟨_, rfl⟩
      · exact Or.inr ⟨_, _, _, _, rfl⟩

theorem sendWelcomeEmail_shape (env : Env) (recipient fullName : Option Json) :
    SendShape env (sendWelcomeEmail env recipient fullName) := by
  unfold sendWelcomeEmail
  split
  · exact Or.inl ⟨_, rfl⟩
  · exact Or.inr ⟨_, _, _, _, rfl⟩

theorem sendPasswordResetEmail_shape (env : Env) (recipient resetLink : Option Json) :
    SendShape env (sendPasswordResetEmail env recipient resetLink) := by
  unfold sendPasswordResetEmail
  split
  · exact Or.inl ⟨_, rfl⟩
  · exact Or.inr ⟨_, _, _, _, rfl⟩

theorem thenSuccess_classified {env : Env} {o : Outcome Json} (h : SendShape env o) :
    Classified env (thenSuccess o) := by
  rcases h with ⟨e, rfl⟩ | ⟨toAddr, subject, text, html, rfl⟩
  · exact Or.inr (Or.inr ⟨rfl, Or.inl ⟨e, rfl⟩⟩)
  · unfold thenSuccess
    rw [sendEmail_result, sendEmail_log]
    cases hsend : env.send (outgoing env toAddr subject text html) with
    | ok ack => exact Or.inl ⟨_, ack, rfl, hsend, rfl⟩
    | error e => exact Or.inr (Or.inl ⟨_, e, rfl, hsend, rfl⟩)

theorem classified_reject {env : Env} (status : Nat) (reason : String)
    (hstatus : status = 400 ∨ status = 401) :
    Classified env ⟨.ok (jsonResponse status (errorBody reason)), []⟩ :=
  Or.inr (Or.inr ⟨rfl, Or.inr ⟨status, reason, hstatus, rfl⟩⟩)

theorem classified_throw {env : Env} (e : Thrown) : Classified env ⟨.error e, []⟩ :=
  Or.inr (Or.inr ⟨rfl, Or.inl ⟨e, rfl⟩⟩)

theorem dispatch_classified (env : Env) (user : User) (requestData : Json) :
    Classified env (dispatch env user requestData) := by
  unfold dispatch
  split
  · split
    · exact classified_reject 400 _ (Or.inl rfl)
    · exact thenSuccess_classified (sendCommentNotification_shape _ _ _ _ _ _)
  · split
    · split
      · exact classified_reject 400 _ (Or.inl rfl)
      · exact thenSuccess_classified (sendWelcomeEmail_shape _ _ _)
    · split
      · split
        · exact classified_reject 400 _ (Or.inl rfl)
        · exact thenSuccess_classified (sendPasswordResetEmail_shape _ _ _)
      · exact classified_reject 400 _ (Or.inl rfl)

theorem handleBody_classified (env : Env) (user : User) (req : Request) :
    Classified env (handleBody env user req) := by
  unfold handleBody
  split
  · exact classified_throw _
  · split
    · exact classified_throw _
    · split
      · exact classified_reject 400 _ (Or.inl rfl)
      · exact dispatch_classified _ _ _

theorem classified_after_getUser {env : Env} {o : Outcome Response} (token : String)
    (h : Classified env o) : Classified env ⟨o.result, .getUser token :: o.log⟩ := h

theorem handlerTry_classified (env : Env) (req : Request) :
    Classified env (handlerTry env req) := by
  unfold handlerTry
  split
  · exact classified_reject 401 _ (Or.inr rfl)
  · split
    · exact classified_reject 401 _ (Or.inr rfl)
    · split
      · exact Or.inr (Or.inr ⟨rfl, Or.inl ⟨_, rfl⟩⟩)
      · exact Or.inr (Or.inr ⟨rfl, Or.inr ⟨401, _, Or.inr rfl, rfl⟩⟩)
      · exact Or.inr (Or.inr ⟨rfl, Or.inr ⟨401, _, Or.inr rfl, rfl⟩⟩)
      · exact classified_after_getUser _ (handleBody_classified _ _ _)

/-- The three ways an invocation can end: an accepted send and 200; a rejected
send and 500 with the rejection's report; no send and a 400, 401 or 500 error
response. -/
theorem handler_cases (env : Env) (req : Request) :
    (∃ msg ack, sentMessages (handler env req).log = [msg] ∧ env.send msg = .ok ack ∧
        (handler env req).response = jsonResponse 200 successBody) ∨
    (∃ msg e, sentMessages (handler env req).log = [msg] ∧ env.send msg = .error e ∧
        (handler env req).response = jsonResponse 500 (errorBody e.report)) ∨
    (sentMessages (handler env req).log = [] ∧
      ∃ status reason, (status = 400 ∨ status = 401 ∨ status = 500) ∧
        (handler env req).response = jsonResponse status (errorBody reason)) := by
  unfold handler
  rcases handlerTry_classified env req with
    ⟨msg, ack, hlog, hsend, hres⟩ | ⟨msg, e, hlog, hsend, hres⟩ | ⟨hlog, ⟨e, hres⟩ | ⟨status, reason, hstatus, hres⟩⟩
  · rw [hres]
    exact Or.inl ⟨msg, ack, hlog, hsend, rfl⟩
  · rw [hres]
    exact Or.inr (Or.inl ⟨msg, e, hlog, hsend, rfl⟩)
  · rw [hres]
    exact Or.inr (Or.inr ⟨hlog, 500, _, Or.inr (Or.inr rfl), rfl⟩)
  · rw [hres]
    refine Or.inr (Or.inr ⟨hlog, status, reason, ?_, rfl⟩)
    rcases hstatus with h | h
    · exact Or.inl h
    · exact Or.inr (Or.inl h)

/-! ## What a send implies -/

theorem thenSuccess_log (o : Outcome Json) : (thenSuccess o).log = o.log := by
  unfold thenSuccess
  split <;> rfl

theorem mem_sent_sendEmail {env : Env} {toAddr : Option Json} {subject text html : String}
    {msg : Message} (h : msg ∈ sentMessages (sendEmail env toAddr subject text html).log) :
    msg = outgoing env toAddr subject text html := by
  rw [sendEmail_log] at h
  simpa [sentMessages] using h

theorem mem_sent_sendCommentNotification {env : Env}
    {recipient ticketNo comment ticketUrl : Option Json} {commenterEmail : String} {msg : Message}
    (h : msg ∈ sentMessages
      (sendCommentNotification env recipient ticketNo comment ticketUrl commenterEmail).log) :
    ∃ ticketNoS commentS ticketUrlS : String,
      toStr ticketNo = .ok ticketNoS ∧ toStr comment = .ok commentS ∧
      toStr ticketUrl = .ok ticketUrlS ∧
      msg = outgoing env recipient (commentSubject ticketNoS)
        (commentText (commenterNameOf commenterEmail) ticketNoS commentS ticketUrlS)
        (commentHtml (commenterNameOf commenterEmail) ticketNoS commentS ticketUrlS) := by
  unfold sendCommentNotification at h
  split at h
  · simp [sentMessages] at h
  · split at h
    · simp [sentMessages] at h
    · split at h
      · simp [sentMessages] at h
      · exact ⟨_, _, _, by assumption, by assumption, by assumption, mem_sent_sendEmail h⟩

theorem mem_sent_sendWelcomeEmail {env : Env} {recipient fullName : Option Json} {msg : Message}
    (h : msg ∈ sentMessages (sendWelcomeEmail env recipient fullName).log) :
    ∃ fullNameS : String, toStr fullName = .ok fullNameS ∧
      msg = outgoing env recipient welcomeSubject (welcomeText fullNameS)
        (welcomeHtml fullNameS) := by
  unfold sendWelcomeEmail at h
  split at h
  · simp [sentMessages] at h
  · exact ⟨_, by assumption, mem_sent_sendEmail h⟩

theorem mem_sent_sendPasswordResetEmail {env : Env} {recipient resetLink : Option Json}
    {msg : Message} (h : msg ∈ sentMessages (sendPasswordResetEmail env recipient resetLink).log) :
    ∃ resetLinkS : String, toStr resetLink = .ok resetLinkS ∧
      msg = outgoing env recipient resetSubject (resetText resetLinkS)
        (resetHtml resetLinkS) := by
  unfold sendPasswordResetEmail at h
  split at h
  · simp [sentMessages] at h
  · exact ⟨_, by assumption, mem_sent_sendEmail h⟩

theorem mem_sent_dispatch {env : Env} {user : User} {requestData : Json} {msg : Message}
    (h : msg ∈ sentMessages (dispatch env user requestData).log) :
    ∃ kind : Kind, requestData.field "type" = some (.str kind.label) ∧
      (∀ name ∈ requiredFields kind, truthy (requestData.field name) = true) ∧
      IsRenderingOf env user requestData kind msg := by
  unfold dispatch at h
  split at h
  · rename_i hcase
    split at h
    · simp [sentMessages] at h
    · rename_i hguard
      rw [thenSuccess_log] at h
      refine ⟨.commentNotification, (strictEqStr_iff _ _).1 hcase, ?_,
        mem_sent_sendCommentNotification h⟩
      simp only [Bool.or_eq_true, Bool.not_eq_true', not_or, Bool.not_eq_false] at hguard
      simp only [requiredFields, List.mem_cons, List.mem_singleton, List.not_mem_nil, or_false]
      rintro name (rfl | rfl | rfl | rfl)
      · exact hguard.1.1.1
      · exact hguard.1.1.2
      · exact hguard.1.2
      · exact hguard.2
  · split at h
    · rename_i hcase
      split at h
      · simp [sentMessages] at h
      · rename_i hguard
        rw [thenSuccess_log] at h
        refine ⟨.welcomeEmail, (strictEqStr_iff _ _).1 hcase, ?_, mem_sent_sendWelcomeEmail h⟩
        simp only [Bool.not_eq_true', Bool.not_eq_false] at hguard
        simp only [requiredFields, List.mem_singleton]
        rintro name rfl
        exact hguard
    · split at h
      · rename_i hcase
        split at h
        · simp [sentMessages] at h
        · rename_i hguard
          rw [thenSuccess_log] at h
          refine ⟨.passwordReset, (strictEqStr_iff _ _).1 hcase, ?_,
            mem_sent_sendPasswordResetEmail h⟩
          simp only [Bool.or_eq_true, Bool.not_eq_true', not_or, Bool.not_eq_false] at hguard
          simp only [requiredFields, List.mem_cons, List.mem_singleton, List.not_mem_nil, or_false]
          rintro name (rfl | rfl)
          · exact hguard.1
          · exact hguard.2
      · simp [sentMessages] at h

theorem mem_sent_handleBody {env : Env} {user : User} {req : Request} {msg : Message}
    (h : msg ∈ sentMessages (handleBody env user req).log) :
    ∃ requestData : Json, req.json = .ok requestData ∧
      msg ∈ sentMessages (dispatch env user requestData).log := by
  unfold handleBody at h
  split at h
  · simp [sentMessages] at h
  · rename_i requestData hjson
    split at h
    · simp [sentMessages] at h
    · split at h
      · simp [sentMessages] at h
      · exact ⟨requestData, hjson, h⟩

theorem mem_sent_handlerTry {env : Env} {req : Request} {msg : Message}
    (h : msg ∈ sentMessages (handlerTry env req).log) :
    ∃ (token : String) (user : User), Authenticated env req token user ∧
      msg ∈ sentMessages (handleBody env user req).log := by
  unfold handlerTry at h
  split at h
  · simp [sentMessages] at h
  · rename_i token htoken
    split at h
    · simp [sentMessages] at h
    · rename_i hne
      split at h
      · simp [sentMessages] at h
      · simp [sentMessages] at h
      · simp [sentMessages] at h
      · rename_i user hget
        exact ⟨token, user, ⟨htoken, hne, hget⟩, by simpa [sentMessages] using h⟩

theorem handler_log (env : Env) (req : Request) :
    (handler env req).log = (handlerTry env req).log := by
  unfold handler
  split <;> rfl

/-! ## What a valid request does -/

theorem sendEmail_eq (env : Env) (toAddr : Option Json) (subject text html : String) :
    sendEmail env toAddr subject text html =
      ⟨env.send (outgoing env toAddr subject text html),
        [.sendEmail (outgoing env toAddr subject text html)]⟩ := by
  unfold sendEmail
  split <;> simp [*]

theorem dispatch_of_valid {env : Env} {user : User} {requestData : Json} {kind : Kind}
    {msg : Message} (htype : requestData.field "type" = some (.str kind.label))
    (hfields : ∀ name ∈ requiredFields kind, truthy (requestData.field name) = true)
    (hrender : IsRenderingOf env user requestData kind msg) :
    dispatch env user requestData = thenSuccess ⟨env.send msg, [.sendEmail msg]⟩ := by
  cases kind with
  | commentNotification =>
    obtain ⟨ticketNo, comment, ticketUrl, h1, h2, h3, rfl⟩ := hrender
    have hr := hfields "recipient" (by simp [requiredFields])
    have ht := hfields "ticket_no" (by simp [requiredFields])
    have hc := hfields "comment" (by simp [requiredFields])
    have hu := hfields "ticket_url" (by simp [requiredFields])
    simp [dispatch, htype, strictEqStr, Kind.label, hr, ht, hc, hu, sendCommentNotification,
      h1, h2, h3, sendEmail_eq]
  | welcomeEmail =>
    obtain ⟨fullName, h1, rfl⟩ := hrender
    have hr := hfields "to" (by simp [requiredFields])
    simp [dispatch, htype, strictEqStr, Kind.label, hr, sendWelcomeEmail, h1, sendEmail_eq]
  | passwordReset =>
    obtain ⟨resetLink, h1, rfl⟩ := hrender
    have hr := hfields "to" (by simp [requiredFields])
    have hl := hfields "reset_link" (by simp [requiredFields])
    simp [dispatch, htype, strictEqStr, Kind.label, hr, hl, sendPasswordResetEmail, h1,
      sendEmail_eq]

/-- An authenticated request of a recognised kind with all required fields
truthy and a rendering `msg` makes exactly two collaborator calls, the
verification and one send of `msg`, and answers by the transport's outcome. -/
theorem handler_of_valid {env : Env} {req : Request} {token : String} {user : User}
    {requestData : Json} {kind : Kind} {msg : Message}
    (hauth : Authenticated env req token user) (hjson : req.json = .ok requestData)
    (htype : requestData.field "type" = some (.str kind.label))
    (hfields : ∀ name ∈ requiredFields kind, truthy (requestData.field name) = true)
    (hrender : IsRenderingOf env user requestData kind msg) :
    (handler env req).log = [.getUser token, .sendEmail msg] ∧
      (handler env req).response =
        match env.send msg with
        | .ok _ => jsonResponse 200 successBody
        | .error e => jsonResponse 500 (errorBody e.report) := by
  have htruthy : truthy (requestData.field "type") = true := by
    rw [htype]; cases kind <;> rfl
  unfold handler
  rw [handler_of_dispatch hauth hjson htruthy, dispatch_of_valid htype hfields hrender]
  unfold thenSuccess
  cases env.send msg <;> exact ⟨rfl, rfl⟩

/-! ## Further inversion and guard facts -/

theorem authenticated_unique {env : Env} {req : Request} {token token' : String}
    {user user' : User} (h : Authenticated env req token user)
    (h' : Authenticated env req token' user') : token = token' ∧ user = user' := by
  obtain ⟨htoken, _, hget⟩ := h
  obtain ⟨htoken', _, hget'⟩ := h'
  have ht : token = token' := Option.some.inj (htoken.symm.trans htoken')
  subst ht
  rw [hget] at hget'
  injection hget' with huser _
  exact ⟨rfl, Option.some.inj huser⟩

theorem mem_sent_of_authenticated {env : Env} {req : Request} {token : String} {user : User}
    {requestData : Json} {msg : Message} (hauth : Authenticated env req token user)
    (hjson : req.json = .ok requestData)
    (h : msg ∈ sentMessages (handler env req).log) :
    ∃ kind : Kind, requestData.field "type" = some (.str kind.label) ∧
      (∀ name ∈ requiredFields kind, truthy (requestData.field name) = true) ∧
      IsRenderingOf env user requestData kind msg := by
  rw [handler_log] at h
  obtain ⟨token', user', hauth', hbody⟩ := mem_sent_handlerTry h
  obtain ⟨_, huser⟩ := authenticated_unique hauth hauth'
  subst huser
  obtain ⟨requestData', hjson', hdispatch⟩ := mem_sent_handleBody hbody
  rw [hjson] at hjson'
  injection hjson' with hdata
  subst hdata
  exact mem_sent_dispatch hdispatch

theorem label_injective {k₁ k₂ : Kind} (h : k₁.label = k₂.label) : k₁ = k₂ := by
  cases k₁ <;> cases k₂ <;> first | rfl | (revert h; decide)

theorem dispatch_of_present {env : Env} {user : User} {requestData : Json} {kind : Kind}
    (htype : requestData.field "type" = some (.str kind.label))
    (hfields : ∀ name ∈ requiredFields kind, truthy (requestData.field name) = true) :
    dispatch env user requestData = thenSuccess (sendFor env user requestData kind) := by
  cases kind with
  | commentNotification =>
    have hr := hfields "recipient" (by simp [requiredFields])
    have ht := hfields "ticket_no" (by simp [requiredFields])
    have hc := hfields "comment" (by simp [requiredFields])
    have hu := hfields "ticket_url" (by simp [requiredFields])
    simp [dispatch, htype, strictEqStr, Kind.label, hr, ht, hc, hu, sendFor]
  | welcomeEmail =>
    have hr := hfields "to" (by simp [requiredFields])
    simp [dispatch, htype, strictEqStr, Kind.label, hr, sendFor]
  | passwordReset =>
    have hr := hfields "to" (by simp [requiredFields])
    have hl := hfields "reset_link" (by simp [requiredFields])
    simp [dispatch, htype, strictEqStr, Kind.label, hr, hl, sendFor]

theorem dispatch_of_missing {env : Env} {user : User} {requestData : Json} {kind : Kind}
    (htype : requestData.field "type" = some (.str kind.label))
    (hmissing : ∃ name ∈ requiredFields kind, truthy (requestData.field name) = false) :
    dispatch env user requestData =
      ⟨.ok (jsonResponse 400 (errorBody (missingFieldReason kind))), []⟩ := by
  obtain ⟨name, hname, hfalse⟩ := hmissing
  cases kind with
  | commentNotification =>
    simp only [requiredFields, List.mem_cons, List.mem_singleton, List.not_mem_nil,
      or_false] at hname
    rcases hname with rfl | rfl | rfl | rfl <;>
      simp [dispatch, htype, strictEqStr, Kind.label, hfalse, missingFieldReason]
  | welcomeEmail =>
    simp only [requiredFields, List.mem_singleton] at hname
    subst hname
    simp [dispatch, htype, strictEqStr, Kind.label, hfalse, missingFieldReason]
  | passwordReset =>
    simp only [requiredFields, List.mem_cons, List.mem_singleton, List.not_mem_nil,
      or_false] at hname
    rcases hname with rfl | rfl <;>
      simp [dispatch, htype, strictEqStr, Kind.label, hfalse, missingFieldReason]

theorem truthy_label (kind : Kind) : truthy (some (.str kind.label)) = true := by
  cases kind <;> rfl

theorem thenSuccess_result_ne_400 (o : Outcome Json) (reason : String) :
    (thenSuccess o).result ≠ .ok (jsonResponse 400 (errorBody reason)) := by
  unfold thenSuccess
  split
  · intro h
    injection h with h
    have hstatus := congrArg Response.status h
    simp [jsonResponse] at hstatus
  · intro h
    cases h

/-! ## Splitting at the separator -/

theorem splitChars_head (sep : Char) (cs : List Char) :
    (splitChars sep cs).head? = some (cs.takeWhile (fun c => c ≠ sep)) := by
  induction cs with
  | nil => rfl
  | cons c cs ih =>
    unfold splitChars
    by_cases hc : c = sep
    · simp [hc]
    · rw [if_neg hc]
      cases hsplit : splitChars sep cs with
      | nil => rw [hsplit] at ih; simp at ih
      | cons piece pieces =>
        rw [hsplit] at ih
        simp only [List.head?_cons, Option.some.injEq] at ih
        simp [hc, ih]

theorem commenterNameOf_eq (commenterEmail : String) :
    commenterNameOf commenterEmail =
      String.mk (commenterEmail.data.takeWhile (fun c => c ≠ '@')) := by
  unfold commenterNameOf jsSplit
  have h := splitChars_head '@' commenterEmail.data
  cases hsplit : splitChars '@' commenterEmail.data with
  | nil => rw [hsplit] at h; simp at h
  | cons piece pieces =>
    rw [hsplit] at h
    simp only [List.head?_cons, Option.some.injEq] at h
    simp [h]

theorem commenterNameOf_local (localPart rest : String) (h : '@' ∉ localPart.data) :
    commenterNameOf (localPart ++ "@" ++ rest) = localPart := by
  rw [commenterNameOf_eq]
  have hdata : (localPart ++ "@" ++ rest).data = localPart.data ++ '@' :: rest.data := by
    simp [String.data_append]
  rw [hdata]
  have htake : ∀ l : List Char, '@' ∉ l →
      (l ++ '@' :: rest.data).takeWhile (fun c => c ≠ '@') = l := by
    intro l
    induction l with
    | nil => intro _; simp
    | cons c l ih =>
      intro hl
      have hc : c ≠ '@' := fun hEq => hl (by simp [hEq])
      have hl' : '@' ∉ l := fun hmem => hl (List.mem_cons_of_mem _ hmem)
      have ih' := ih hl'
      simp only [List.cons_append, List.takeWhile, hc, ne_eq, not_false_eq_true, decide_True]
      exact congrArg (List.cons c) ih'
  rw [htake _ h]

/-! ## Authentication guards -/

/-- C1: a request without an `Authorization` header is answered 401 with
`{error: "Authorization token required"}` whatever the outcome of reading its
body would be, and no collaborator (verifier or transport) is called. -/
theorem no_authorization_header_401 (env : Env) (json : Except Thrown Json) :
    (handler env ⟨none, json⟩).response =
        jsonResponse 401 (errorBody "Authorization token required") ∧
      verifiedTokens (handler env ⟨none, json⟩).log = [] ∧
      sentMessages (handler env ⟨none, json⟩).log = [] :=
  ⟨rfl, rfl, rfl⟩

/-- C2: when the request carries a token and the verifier resolves with an
error or without a user, the answer is 401 with
`{error: "Invalid authorization token"}` whatever the body is; the only
collaborator call is the verification, so the transport is never called. -/
theorem rejected_token_401 (env : Env) (req : Request) (token : String)
    (user : Option User) (error : Option String)
    (htoken : tokenOf req = some token) (hne : token ≠ "")
    (hverify : env.getUser token = .returned user error)
    (hreject : error ≠ none ∨ user = none) :
    (handler env req).response = jsonResponse 401 (errorBody "Invalid authorization token") ∧
      (handler env req).log = [.getUser token] ∧
      sentMessages (handler env req).log = [] := by
  have htry : handlerTry env req =
      ⟨.ok (jsonResponse 401 (errorBody "Invalid authorization token")), [.getUser token]⟩ := by
    unfold handlerTry
    rw [htoken]
    simp only [hne, if_false, hverify]
    cases error with
    | some _ => cases user <;> rfl
    | none =>
      cases user with
      | none => rfl
      | some _ => simp at hreject
  unfold handler
  rw [htry]
  exact ⟨rfl, rfl, rfl⟩

theorem rejected_token_401_witness :
    (handler sampleEnv ⟨some "Bearer stale", .error (.error "Unexpected end of JSON input")⟩).response =
        jsonResponse 401 (errorBody "Invalid authorization token") ∧
      (handler sampleEnv ⟨some "Bearer stale", .error (.error "Unexpected end of JSON input")⟩).log =
        [.getUser "stale"] ∧
      sentMessages
        (handler sampleEnv ⟨some "Bearer stale", .error (.error "Unexpected end of JSON input")⟩).log = [] :=
  rejected_token_401 sampleEnv ⟨some "Bearer stale", .error (.error "Unexpected end of JSON input")⟩
    "stale" none (some "invalid JWT") rfl (by decide) rfl (Or.inl (by simp))

/-! ## Validation guards -/

/-- The `type` guard on a body that is not `null`: for an authenticated request
whose parsed body is not `null` and whose `type` is absent or falsy (in
particular the empty string), the answer is 400 with
`{error: "Email type is required"}` and the transport is not called. -/
theorem missing_type_400 (env : Env) (req : Request) (token : String) (user : User)
    (requestData : Json) (hauth : Authenticated env req token user)
    (hjson : req.json = .ok requestData) (hobj : requestData ≠ .null)
    (htype : truthy (requestData.field "type") = false) :
    (handler env req).response = jsonResponse 400 (errorBody "Email type is required") ∧
      sentMessages (handler env req).log = [] := by
  have hbody : handleBody env user req =
      ⟨.ok (jsonResponse 400 (errorBody "Email type is required")), []⟩ := by
    unfold handleBody
    rw [hjson]
    simp only [readType_of_ne_null hobj, htype, Bool.not_false, if_true]
  unfold handler
  rw [handlerTry_of_authenticated hauth, hbody]
  exact ⟨rfl, rfl⟩

theorem missing_type_400_witness :
    (handler sampleEnv (sampleRequest (.obj [("type", .str ""), ("to", .str "bob@canberra.edu.au")]))).response =
        jsonResponse 400 (errorBody "Email type is required") ∧
      sentMessages
        (handler sampleEnv (sampleRequest (.obj [("type", .str ""), ("to", .str "bob@canberra.edu.au")]))).log = [] :=
  missing_type_400 sampleEnv _ "good" sampleUser
    (.obj [("type", .str ""), ("to", .str "bob@canberra.edu.au")])
    (sample_authenticated _) rfl (by simp) rfl

/-- C3 on the code, at the parsed body `null`: the caller is authenticated and
the body has no `type`, yet the guard's own read `requestData.type` throws, the
catch block answers 500 with the `TypeError`'s message, and the answer is not
the 400 `{error: "Email type is required"}` that every other body without a
`type` receives. -/
theorem missing_type_null_body_500 :
    Authenticated sampleEnv (sampleRequest .null) "good" sampleUser ∧
      (sampleRequest .null).json = .ok .null ∧
      Json.null.field "type" = none ∧
      (handler sampleEnv (sampleRequest .null)).response =
        jsonResponse 500 (errorBody (nullReadError "type").report) ∧
      (handler sampleEnv (sampleRequest .null)).response.status = 500 ∧
      sentMessages (handler sampleEnv (sampleRequest .null)).log = [] ∧
      (handler sampleEnv (sampleRequest .null)).response ≠
        jsonResponse 400 (errorBody "Email type is required") := by
  refine ⟨sample_authenticated _, rfl, rfl, rfl, rfl, rfl, ?_⟩
  intro h
  have hstatus := congrArg Response.status h
  revert hstatus
  decide

/-- C4: an authenticated request of type `"comment_notification"` in which one
of `recipient`, `ticket_no`, `comment`, `ticket_url` is missing or falsy (in
particular empty) is answered 400 with
`{error: "Missing required fields for comment notification"}` and the transport
is called zero times. -/
theorem comment_notification_missing_field_400 (env : Env) (req : Request) (token : String)
    (user : User) (requestData : Json) (hauth : Authenticated env req token user)
    (hjson : req.json = .ok requestData)
    (htype : requestData.field "type" = some (.str "comment_notification"))
    (hmissing : truthy (requestData.field "recipient") = false ∨
      truthy (requestData.field "ticket_no") = false ∨
      truthy (requestData.field "comment") = false ∨
      truthy (requestData.field "ticket_url") = false) :
    (handler env req).response =
        jsonResponse 400 (errorBody "Missing required fields for comment notification") ∧
      sentMessages (handler env req).log = [] := by
  have htruthy : truthy (requestData.field "type") = true := by rw [htype]; rfl
  have hcase : strictEqStr (requestData.field "type") "comment_notification" = true :=
    (strictEqStr_iff _ _).2 htype
  have hguard : (!truthy (requestData.field "recipient") || !truthy (requestData.field "ticket_no") ||
      !truthy (requestData.field "comment") || !truthy (requestData.field "ticket_url")) = true := by
    rcases hmissing with h | h | h | h <;> simp [h]
  have hdispatch : dispatch env user requestData =
      ⟨.ok (jsonResponse 400 (errorBody "Missing required fields for comment notification")), []⟩ := by
    unfold dispatch
    rw [if_pos hcase, if_pos hguard]
  unfold handler
  rw [handler_of_dispatch hauth hjson htruthy, hdispatch]
  exact ⟨rfl, rfl⟩

theorem comment_notification_missing_field_400_witness :
    (handler sampleEnv (sampleRequest (.obj [("type", .str "comment_notification"),
        ("recipient", .str "bob@canberra.edu.au"), ("ticket_no", .str "LAB-7"),
        ("comment", .str ""), ("ticket_url", .str "https://x/t/7")]))).response =
        jsonResponse 400 (errorBody "Missing required fields for comment notification") ∧
      sentMessages (handler sampleEnv (sampleRequest (.obj [("type", .str "comment_notification"),
        ("recipient", .str "bob@canberra.edu.au"), ("ticket_no", .str "LAB-7"),
        ("comment", .str ""), ("ticket_url", .str "https://x/t/7")]))).log = [] :=
  comment_notification_missing_field_400 sampleEnv _ "good" sampleUser
    (.obj [("type", .str "comment_notification"),
      ("recipient", .str "bob@canberra.edu.au"), ("ticket_no", .str "LAB-7"),
      ("comment", .str ""), ("ticket_url", .str "https://x/t/7")])
    (sample_authenticated _) rfl rfl (Or.inr (Or.inr (Or.inl rfl)))

/-- C5: an authenticated request whose `type` is truthy and is none of the
strings `"comment_notification"`, `"welcome_email"`, `"password_reset"` is
answered 400 with `{error: "Invalid email type"}` whatever else the body
carries, and the transport is never called. -/
theorem unknown_type_400 (env : Env) (req : Request) (token : String) (user : User)
    (requestData : Json) (hauth : Authenticated env req token user)
    (hjson : req.json = .ok requestData)
    (htype : truthy (requestData.field "type") = true)
    (hcomment : requestData.field "type" ≠ some (.str "comment_notification"))
    (hwelcome : requestData.field "type" ≠ some (.str "welcome_email"))
    (hreset : requestData.field "type" ≠ some (.str "password_reset")) :
    (handler env req).response = jsonResponse 400 (errorBody "Invalid email type") ∧
      sentMessages (handler env req).log = [] := by
  have h1 : ¬ strictEqStr (requestData.field "type") "comment_notification" = true :=
    fun h => hcomment ((strictEqStr_iff _ _).1 h)
  have h2 : ¬ strictEqStr (requestData.field "type") "welcome_email" = true :=
    fun h => hwelcome ((strictEqStr_iff _ _).1 h)
  have h3 : ¬ strictEqStr (requestData.field "type") "password_reset" = true :=
    fun h => hreset ((strictEqStr_iff _ _).1 h)
  have hdispatch : dispatch env user requestData =
      ⟨.ok (jsonResponse 400 (errorBody "Invalid email type")), []⟩ := by
    unfold dispatch
    rw [if_neg h1, if_neg h2, if_neg h3]
  unfold handler
  rw [handler_of_dispatch hauth hjson htype, hdispatch]
  exact ⟨rfl, rfl⟩

theorem unknown_type_400_witness :
    (handler sampleEnv (sampleRequest (.obj [("type", .str "foo"),
        ("to", .str "bob@canberra.edu.au"), ("reset_link", .str "https://x/reset?t=abc")]))).response =
        jsonResponse 400 (errorBody "Invalid email type") ∧
      sentMessages (handler sampleEnv (sampleRequest (.obj [("type", .str "foo"),
        ("to", .str "bob@canberra.edu.au"), ("reset_link", .str "https://x/reset?t=abc")]))).log = [] :=
  unknown_type_400 sampleEnv _ "good" sampleUser
    (.obj [("type", .str "foo"),
      ("to", .str "bob@canberra.edu.au"), ("reset_link", .str "https://x/reset?t=abc")])
    (sample_authenticated _) rfl rfl
    (by simp [Json.field, lookupMember]) (by simp [Json.field, lookupMember])
    (by simp [Json.field, lookupMember])

/-! ## Sends -/

/-- C6 (no partial sends): whenever a message is handed to the transport, the
caller's token was accepted by the verifier, the body was parsed, its `type` is
the label of one of the three kinds, every required field of that kind is
truthy (present and non-empty), and the message is the complete rendering
(recipient, subject, text, HTML) of the request. -/
theorem no_partial_sends (env : Env) (req : Request) (msg : Message)
    (hsent : msg ∈ sentMessages (handler env req).log) :
    ∃ (token : String) (user : User) (requestData : Json) (kind : Kind),
      Authenticated env req token user ∧
      req.json = .ok requestData ∧
      requestData.field "type" = some (.str kind.label) ∧
      (∀ name ∈ requiredFields kind, truthy (requestData.field name) = true) ∧
      IsRenderingOf env user requestData kind msg := by
  rw [handler_log] at hsent
  obtain ⟨token, user, hauth, hbody⟩ := mem_sent_handlerTry hsent
  obtain ⟨requestData, hjson, hdispatch⟩ := mem_sent_handleBody hbody
  obtain ⟨kind, htype, hfields, hrender⟩ := mem_sent_dispatch hdispatch
  exact ⟨token, user, requestData, kind, hauth, hjson, htype, hfields, hrender⟩

theorem no_partial_sends_witness :
    outgoing sampleEnv (some (.str "bob@canberra.edu.au")) welcomeSubject
        (welcomeText "Bob Brown") (welcomeHtml "Bob Brown") ∈
      sentMessages (handler sampleEnv (sampleRequest sampleWelcomeBody)).log ∧
    ∃ (token : String) (user : User) (requestData : Json) (kind : Kind),
      Authenticated sampleEnv (sampleRequest sampleWelcomeBody) token user ∧
      (sampleRequest sampleWelcomeBody).json = .ok requestData ∧
      requestData.field "type" = some (.str kind.label) ∧
      (∀ name ∈ requiredFields kind, truthy (requestData.field name) = true) ∧
      IsRenderingOf sampleEnv user requestData kind
        (outgoing sampleEnv (some (.str "bob@canberra.edu.au")) welcomeSubject
          (welcomeText "Bob Brown") (welcomeHtml "Bob Brown")) :=
  ⟨List.Mem.head _,
    no_partial_sends sampleEnv (sampleRequest sampleWelcomeBody) _ (List.Mem.head _)⟩

/-- C7: the answer is 200 with `{success: true}` exactly when the transport
was called for the request and accepted the message; in every other case the
status is 400, 401 or 500 and the body is `{error: reason}`. -/
theorem success_iff_send_accepted (env : Env) (req : Request) :
    ((handler env req).response = jsonResponse 200 successBody ↔
        ∃ msg ack, msg ∈ sentMessages (handler env req).log ∧ env.send msg = .ok ack) ∧
      ((handler env req).response ≠ jsonResponse 200 successBody →
        ((handler env req).response.status = 400 ∨ (handler env req).response.status = 401 ∨
            (handler env req).response.status = 500) ∧
          ∃ reason, (handler env req).response.body = errorBody reason) := by
  rcases handler_cases env req with
    ⟨msg, ack, hlog, hsend, hres⟩ | ⟨msg, e, hlog, hsend, hres⟩ |
    ⟨hlog, status, reason, hstatus, hres⟩
  · exact ⟨⟨fun _ => ⟨msg, ack, by rw [hlog]; exact List.Mem.head _, hsend⟩, fun _ => hres⟩,
      fun h => absurd hres h⟩
  · refine ⟨⟨fun h => ?_, fun ⟨other, ack, hmem, hok⟩ => ?_⟩,
      fun _ => ⟨Or.inr (Or.inr (by rw [hres]; rfl)), e.report, by rw [hres]; rfl⟩⟩
    · rw [hres] at h
      have hstatus := congrArg Response.status h
      simp [jsonResponse] at hstatus
    · rw [hlog, List.mem_singleton] at hmem
      subst hmem
      rw [hsend] at hok
      cases hok
  · refine ⟨⟨fun h => ?_, fun ⟨other, ack, hmem, _⟩ => ?_⟩, fun _ => ⟨?_, reason, by rw [hres]; rfl⟩⟩
    · rw [hres] at h
      have h200 : status = 200 := congrArg Response.status h
      omega
    · rw [hlog] at hmem
      cases hmem
    · rw [hres]
      exact hstatus

/-- C8: for an authenticated request of a recognised kind with all required
fields truthy, whose rendering `msg` the transport rejects with an error of
message `m`, the answer is 500 with `{error: m}` (the message unchanged); it
is not the 200 success response. -/
theorem transport_failure_500 (env : Env) (req : Request) (token : String) (user : User)
    (requestData : Json) (kind : Kind) (msg : Message) (m : String)
    (hauth : Authenticated env req token user) (hjson : req.json = .ok requestData)
    (htype : requestData.field "type" = some (.str kind.label))
    (hfields : ∀ name ∈ requiredFields kind, truthy (requestData.field name) = true)
    (hrender : IsRenderingOf env user requestData kind msg)
    (hfail : env.send msg = .error (.error m)) :
    (handler env req).response = jsonResponse 500 (errorBody m) ∧
      (handler env req).response.status ≠ 200 ∧
      sentMessages (handler env req).log = [msg] := by
  obtain ⟨hlog, hres⟩ := handler_of_valid hauth hjson htype hfields hrender
  rw [hfail] at hres
  rw [hres, hlog]
  refine ⟨rfl, ?_, rfl⟩
  show (500 : Nat) ≠ 200
  decide

theorem transport_failure_500_witness :
    (handler rejectingEnv (sampleRequest sampleResetBody)).response =
        jsonResponse 500 (errorBody "Inactive recipient") ∧
      (handler rejectingEnv (sampleRequest sampleResetBody)).response.status ≠ 200 ∧
      sentMessages (handler rejectingEnv (sampleRequest sampleResetBody)).log =
        [outgoing rejectingEnv (some (.str "bob@canberra.edu.au")) resetSubject
          (resetText "https://x/reset?t=abc") (resetHtml "https://x/reset?t=abc")] :=
  transport_failure_500 rejectingEnv (sampleRequest sampleResetBody) "good" sampleUser
    sampleResetBody .passwordReset _ "Inactive recipient" ⟨rfl, by decide, rfl⟩ rfl rfl
    (by simp [requiredFields, sampleResetBody, Json.field, lookupMember, truthy])
    ⟨"https://x/reset?t=abc", rfl, rfl⟩ rfl

/-! ## Rendered content -/

theorem contains_welcomeText (fullName : String) : Contains (welcomeText fullName) fullName := by
  refine ⟨"Hi ", ",\n" ++
    "\n" ++
    "Your account has been created successfully!\n" ++
    "\n" ++
    "You can now log in to track your support requests.\n" ++
    "\n" ++
    "If you forgot your password, you can reset it from the login page.\n" ++
    "\n" ++
    "Best regards,\n" ++
    "SciTech Support Team", ?_⟩
  simp only [welcomeText, String.append_assoc]

theorem contains_welcomeHtml (fullName : String) : Contains (welcomeHtml fullName) fullName := by
  refine ⟨"\n" ++
    "    <div style=\"font-family: Arial, sans-serif; max-width: 600px; margin: 0 auto;\">\n" ++
    "      <h2 style=\"color: #333;\">Welcome to SciTech Support</h2>\n" ++
    "      <p>Hi ", ",</p>\n" ++
    "      <p>Your account has been created successfully!</p>\n" ++
    "      <p>You can now log in to track your support requests.</p>\n" ++
    "      <p>If you forgot your password, you can reset it from the login page.</p>\n" ++
    "      <p>Best regards,<br>SciTech Support Team</p>\n" ++
    "    </div>\n" ++
    "  ", ?_⟩
  simp only [welcomeHtml, String.append_assoc]

theorem contains_resetText_link (resetLink : String) : Contains (resetText resetLink) resetLink := by
  refine ⟨"We received a password reset request for your SciTech Support account.\n" ++
    "\n" ++
    "If you didn't request this, please ignore this email.\n" ++
    "\n" ++
    "Otherwise, use this link to reset your password:\n", "\n" ++
    "\n" ++
    "This link expires in 24 hours.", ?_⟩
  simp only [resetText, String.append_assoc]

theorem contains_resetText_expiry (resetLink : String) :
    Contains (resetText resetLink) "This link expires in 24 hours." := by
  refine ⟨"We received a password reset request for your SciTech Support account.\n" ++
    "\n" ++
    "If you didn't request this, please ignore this email.\n" ++
    "\n" ++
    "Otherwise, use this link to reset your password:\n" ++
    resetLink ++
    "\n" ++
    "\n", "", ?_⟩
  simp only [resetText, String.append_assoc, String.append_empty]

theorem contains_resetHtml_href (resetLink : String) :
    Contains (resetHtml resetLink) ("href=\"" ++ resetLink ++ "\"") := by
  have hopen : "      <a href=\"" = "      <a " ++ "href=\"" := rfl
  have hclose : "\" style=\"display: inline-block; background: #2196F3; color: white; padding: 10px 20px; text-decoration: none; border-radius: 4px; margin: 15px 0;\">Reset Password</a>\n" =
      "\"" ++ " style=\"display: inline-block; background: #2196F3; color: white; padding: 10px 20px; text-decoration: none; border-radius: 4px; margin: 15px 0;\">Reset Password</a>\n" :=
    rfl
  refine ⟨"\n" ++
    "    <div style=\"font-family: Arial, sans-serif; max-width: 600px; margin: 0 auto;\">\n" ++
    "      <h2 style=\"color: #333;\">Password Reset Request</h2>\n" ++
    "      <p>We received a password reset request for your SciTech Support account.</p>\n" ++
    "      <p>If you didn't request this, please ignore this email.</p>\n" ++
    "      <p>Otherwise, use the button below to reset your password:</p>\n" ++
    "      <a ", " style=\"display: inline-block; background: #2196F3; color: white; padding: 10px 20px; text-decoration: none; border-radius: 4px; margin: 15px 0;\">Reset Password</a>\n" ++
    "      <p>This link expires in 24 hours.</p>\n" ++
    "    </div>\n" ++
    "  ", ?_⟩
  unfold resetHtml
  rw [hopen, hclose]
  simp only [String.append_assoc]

/-- C9: an authenticated `"welcome_email"` request with a truthy `to` and the
string `n` as `full_name` makes the transport be called exactly once, with
`To` equal to the request's `to`, a subject containing
`"Welcome to SciTech Support"`, and a text body and an HTML body that both
contain `n`. -/
theorem welcome_email_sent_once (env : Env) (req : Request) (token : String) (user : User)
    (requestData : Json) (n : String) (hauth : Authenticated env req token user)
    (hjson : req.json = .ok requestData)
    (htype : requestData.field "type" = some (.str "welcome_email"))
    (hto : truthy (requestData.field "to") = true)
    (hname : requestData.field "full_name" = some (.str n)) :
    ∃ msg, sentMessages (handler env req).log = [msg] ∧
      msg.To = requestData.field "to" ∧
      Contains msg.Subject "Welcome to SciTech Support" ∧
      Contains msg.TextBody n ∧ Contains msg.HtmlBody n := by
  have hrender : IsRenderingOf env user requestData .welcomeEmail
      (outgoing env (requestData.field "to") welcomeSubject (welcomeText n) (welcomeHtml n)) :=
    ⟨n, by rw [hname]; rfl, rfl⟩
  have hfields : ∀ name ∈ requiredFields .welcomeEmail,
      truthy (requestData.field name) = true := by
    simp only [requiredFields, List.mem_singleton]
    rintro name rfl
    exact hto
  have hlabel : requestData.field "type" = some (.str Kind.welcomeEmail.label) := htype
  obtain ⟨hlog, _⟩ := handler_of_valid hauth hjson hlabel hfields hrender
  exact ⟨_, by rw [hlog]; rfl, rfl, ⟨"", "", rfl⟩, contains_welcomeText n,
    contains_welcomeHtml n⟩

theorem welcome_email_sent_once_witness :
    ∃ msg, sentMessages (handler sampleEnv (sampleRequest sampleWelcomeBody)).log = [msg] ∧
      msg.To = sampleWelcomeBody.field "to" ∧
      Contains msg.Subject "Welcome to SciTech Support" ∧
      Contains msg.TextBody "Bob Brown" ∧ Contains msg.HtmlBody "Bob Brown" :=
  welcome_email_sent_once sampleEnv (sampleRequest sampleWelcomeBody) "good" sampleUser
    sampleWelcomeBody "Bob Brown" ⟨rfl, by decide, rfl⟩ rfl rfl rfl rfl

/-- C10: for an authenticated `"password_reset"` request with a truthy `to` and
the non-empty string `L` as `reset_link`, the message handed to the transport
has an HTML body containing `href="L"`, a text body containing `L`, and a text
body containing the sentence "This link expires in 24 hours." -/
theorem password_reset_rendering (env : Env) (req : Request) (token : String) (user : User)
    (requestData : Json) (L : String) (hauth : Authenticated env req token user)
    (hjson : req.json = .ok requestData)
    (htype : requestData.field "type" = some (.str "password_reset"))
    (hto : truthy (requestData.field "to") = true)
    (hlink : requestData.field "reset_link" = some (.str L)) (hL : L ≠ "") :
    ∃ msg, sentMessages (handler env req).log = [msg] ∧
      Contains msg.HtmlBody ("href=\"" ++ L ++ "\"") ∧
      Contains msg.TextBody L ∧
      Contains msg.TextBody "This link expires in 24 hours." := by
  have hrender : IsRenderingOf env user requestData .passwordReset
      (outgoing env (requestData.field "to") resetSubject (resetText L) (resetHtml L)) :=
    ⟨L, by rw [hlink]; rfl, rfl⟩
  have hfields : ∀ name ∈ requiredFields .passwordReset,
      truthy (requestData.field name) = true := by
    simp only [requiredFields, List.mem_cons, List.mem_singleton, List.not_mem_nil, or_false]
    rintro name (rfl | rfl)
    · exact hto
    · rw [hlink]
      simp [truthy, hL]
  have hlabel : requestData.field "type" = some (.str Kind.passwordReset.label) := htype
  obtain ⟨hlog, _⟩ := handler_of_valid hauth hjson hlabel hfields hrender
  exact ⟨_, by rw [hlog]; rfl, contains_resetHtml_href L, contains_resetText_link L,
    contains_resetText_expiry L⟩

theorem password_reset_rendering_witness :
    ∃ msg, sentMessages (handler sampleEnv (sampleRequest sampleResetBody)).log = [msg] ∧
      Contains msg.HtmlBody ("href=\"" ++ "https://x/reset?t=abc" ++ "\"") ∧
      Contains msg.TextBody "https://x/reset?t=abc" ∧
      Contains msg.TextBody "This link expires in 24 hours." :=
  password_reset_rendering sampleEnv (sampleRequest sampleResetBody) "good" sampleUser
    sampleResetBody "https://x/reset?t=abc" ⟨rfl, by decide, rfl⟩ rfl rfl rfl rfl (by decide)

/-! ## Comment notifications and the end-to-end scenario -/

/-- C11: for an authenticated `"comment_notification"` request with its four
fields truthy, made by a caller whose verified email is `localPart@rest` with
no `@` in `localPart`, the commenter name is exactly `localPart`, and the
message handed to the transport has the subject
`"New comment on your support ticket #"` followed by the request's `ticket_no`
(its `ToString` image `t`) and bodies rendered with `localPart` as the name. -/
theorem comment_notification_name_and_subject (env : Env) (req : Request) (token : String)
    (user : User) (requestData : Json) (localPart rest t c u : String)
    (hauth : Authenticated env req token user) (hjson : req.json = .ok requestData)
    (htype : requestData.field "type" = some (.str "comment_notification"))
    (hfields : ∀ name ∈ requiredFields .commentNotification,
      truthy (requestData.field name) = true)
    (ht : toStr (requestData.field "ticket_no") = .ok t)
    (hc : toStr (requestData.field "comment") = .ok c)
    (hu : toStr (requestData.field "ticket_url") = .ok u)
    (hemail : user.email = some (localPart ++ "@" ++ rest)) (hlocal : '@' ∉ localPart.data) :
    commenterNameOf (user.email.getD "") = localPart ∧
      ∃ msg, sentMessages (handler env req).log = [msg] ∧
        msg.Subject = "New comment on your support ticket #" ++ t ∧
        msg.TextBody = commentText localPart t c u ∧
        msg.HtmlBody = commentHtml localPart t c u := by
  have hname : commenterNameOf (user.email.getD "") = localPart := by
    rw [hemail, Option.getD_some]
    exact commenterNameOf_local localPart rest hlocal
  have hrender : IsRenderingOf env user requestData .commentNotification
      (outgoing env (requestData.field "recipient") (commentSubject t)
        (commentText localPart t c u) (commentHtml localPart t c u)) := by
    refine ⟨t, c, u, ht, hc, hu, ?_⟩
    rw [hname]
  have hlabel : requestData.field "type" = some (.str Kind.commentNotification.label) := htype
  obtain ⟨hlog, _⟩ := handler_of_valid hauth hjson hlabel hfields hrender
  refine ⟨hname, outgoing env (requestData.field "recipient") (commentSubject t)
    (commentText localPart t c u) (commentHtml localPart t c u), ?_, rfl, rfl, rfl⟩
  rw [hlog]
  rfl

theorem comment_notification_name_and_subject_witness :
    commenterNameOf (sampleUser.email.getD "") = "alice.smith" ∧
      ∃ msg, sentMessages (handler sampleEnv (sampleRequest sampleCommentBody)).log = [msg] ∧
        msg.Subject = "New comment on your support ticket #" ++ "LAB-7" ∧
        msg.TextBody = commentText "alice.smith" "LAB-7" "Badge <b>ready</b> & waiting"
          "https://x/t/7" ∧
        msg.HtmlBody = commentHtml "alice.smith" "LAB-7" "Badge <b>ready</b> & waiting"
          "https://x/t/7" :=
  comment_notification_name_and_subject sampleEnv (sampleRequest sampleCommentBody) "good"
    sampleUser sampleCommentBody "alice.smith" "uni.canberra.edu.au" "LAB-7"
    "Badge <b>ready</b> & waiting" "https://x/t/7" ⟨rfl, by decide, rfl⟩ rfl rfl
    (by simp [requiredFields, sampleCommentBody, Json.field, lookupMember, truthy])
    rfl rfl rfl rfl (by decide)

/-- C12 (end to end): a request with an accepted token whose body has `type`
`"password_reset"`, `to` `"bob@canberra.edu.au"` and `reset_link`
`"https://x/reset?t=abc"`, served with a transport that accepts every message,
makes the transport be called exactly once, with `To` `"bob@canberra.edu.au"`,
`Subject` `"Password Reset Request"` and an `HtmlBody` containing
`href="https://x/reset?t=abc"`, and is answered 200 with `{success: true}`. -/
theorem password_reset_end_to_end (env : Env) (req : Request) (token : String) (user : User)
    (requestData : Json) (hauth : Authenticated env req token user)
    (hjson : req.json = .ok requestData)
    (htype : requestData.field "type" = some (.str "password_reset"))
    (hto : requestData.field "to" = some (.str "bob@canberra.edu.au"))
    (hlink : requestData.field "reset_link" = some (.str "https://x/reset?t=abc"))
    (hsend : ∀ msg, ∃ ack, env.send msg = .ok ack) :
    (∃ msg, sentMessages (handler env req).log = [msg] ∧
        msg.To = some (.str "bob@canberra.edu.au") ∧
        msg.Subject = "Password Reset Request" ∧
        Contains msg.HtmlBody "href=\"https://x/reset?t=abc\"") ∧
      (handler env req).response = jsonResponse 200 successBody := by
  have hrender : IsRenderingOf env user requestData .passwordReset
      (outgoing env (some (.str "bob@canberra.edu.au")) resetSubject
        (resetText "https://x/reset?t=abc") (resetHtml "https://x/reset?t=abc")) :=
    ⟨"https://x/reset?t=abc", by rw [hlink]; rfl, by rw [hto]⟩
  have hfields : ∀ name ∈ requiredFields .passwordReset,
      truthy (requestData.field name) = true := by
    simp only [requiredFields, List.mem_cons, List.mem_singleton, List.not_mem_nil, or_false]
    rintro name (rfl | rfl)
    · rw [hto]; rfl
    · rw [hlink]; rfl
  have hlabel : requestData.field "type" = some (.str Kind.passwordReset.label) := htype
  obtain ⟨hlog, hres⟩ := handler_of_valid hauth hjson hlabel hfields hrender
  obtain ⟨ack, hack⟩ := hsend (outgoing env (some (.str "bob@canberra.edu.au")) resetSubject
    (resetText "https://x/reset?t=abc") (resetHtml "https://x/reset?t=abc"))
  rw [hack] at hres
  exact ⟨⟨_, by rw [hlog]; rfl, rfl, rfl, contains_resetHtml_href "https://x/reset?t=abc"⟩,
    hres⟩

theorem password_reset_end_to_end_witness :
    (∃ msg, sentMessages (handler sampleEnv (sampleRequest sampleResetBody)).log = [msg] ∧
        msg.To = some (.str "bob@canberra.edu.au") ∧
        msg.Subject = "Password Reset Request" ∧
        Contains msg.HtmlBody "href=\"https://x/reset?t=abc\"") ∧
      (handler sampleEnv (sampleRequest sampleResetBody)).response =
        jsonResponse 200 successBody :=
  password_reset_end_to_end sampleEnv (sampleRequest sampleResetBody) "good" sampleUser
    sampleResetBody ⟨rfl, by decide, rfl⟩ rfl rfl rfl rfl (fun _ => ⟨.null, rfl⟩)

/-! ## Determinism, validation and the transport message -/

theorem toStr_unique {v : Option Json} {a b : String} (ha : toStr v = .ok a)
    (hb : toStr v = .ok b) : a = b := by
  rw [ha] at hb
  injection hb

/-- C13: the rendered content is a function of the request's fields and, for a
comment notification, of the caller's email only.  Take two runs with possibly
different verifiers, transports, sender configuration, headers and tokens, on
the same parsed body, by callers with the same email when the request is a
comment notification: any message sent in the first and any message sent in
the second have the same recipient, subject, text body and HTML body. -/
theorem rendering_deterministic (env₁ env₂ : Env) (req₁ req₂ : Request)
    (token₁ token₂ : String) (user₁ user₂ : User) (requestData : Json) (msg₁ msg₂ : Message)
    (hauth₁ : Authenticated env₁ req₁ token₁ user₁)
    (hauth₂ : Authenticated env₂ req₂ token₂ user₂)
    (hjson₁ : req₁.json = .ok requestData) (hjson₂ : req₂.json = .ok requestData)
    (hemail : requestData.field "type" = some (.str "comment_notification") →
      user₁.email = user₂.email)
    (hsent₁ : msg₁ ∈ sentMessages (handler env₁ req₁).log)
    (hsent₂ : msg₂ ∈ sentMessages (handler env₂ req₂).log) :
    msg₁.To = msg₂.To ∧ msg₁.Subject = msg₂.Subject ∧ msg₁.TextBody = msg₂.TextBody ∧
      msg₁.HtmlBody = msg₂.HtmlBody := by
  obtain ⟨kind₁, htype₁, _, hrender₁⟩ := mem_sent_of_authenticated hauth₁ hjson₁ hsent₁
  obtain ⟨kind₂, htype₂, _, hrender₂⟩ := mem_sent_of_authenticated hauth₂ hjson₂ hsent₂
  have hlabel : kind₁.label = kind₂.label := by
    rw [htype₁] at htype₂
    injection htype₂ with h
    injection h
  have hkind := label_injective hlabel
  subst hkind
  cases kind₁ with
  | commentNotification =>
    obtain ⟨t₁, c₁, u₁, ht₁, hc₁, hu₁, rfl⟩ := hrender₁
    obtain ⟨t₂, c₂, u₂, ht₂, hc₂, hu₂, rfl⟩ := hrender₂
    have ht := toStr_unique ht₁ ht₂
    have hc := toStr_unique hc₁ hc₂
    have hu := toStr_unique hu₁ hu₂
    have he := hemail htype₁
    subst ht hc hu
    rw [he]
    exact ⟨rfl, rfl, rfl, rfl⟩
  | welcomeEmail =>
    obtain ⟨n₁, hn₁, rfl⟩ := hrender₁
    obtain ⟨n₂, hn₂, rfl⟩ := hrender₂
    have hn := toStr_unique hn₁ hn₂
    subst hn
    exact ⟨rfl, rfl, rfl, rfl⟩
  | passwordReset =>
    obtain ⟨l₁, hl₁, rfl⟩ := hrender₁
    obtain ⟨l₂, hl₂, rfl⟩ := hrender₂
    have hl := toStr_unique hl₁ hl₂
    subst hl
    exact ⟨rfl, rfl, rfl, rfl⟩

theorem rendering_deterministic_witness :
    (outgoing sampleEnv (some (.str "bob@canberra.edu.au")) resetSubject
        (resetText "https://x/reset?t=abc") (resetHtml "https://x/reset?t=abc")).To =
      (outgoing rejectingEnv (some (.str "bob@canberra.edu.au")) resetSubject
        (resetText "https://x/reset?t=abc") (resetHtml "https://x/reset?t=abc")).To ∧
    (outgoing sampleEnv (some (.str "bob@canberra.edu.au")) resetSubject
        (resetText "https://x/reset?t=abc") (resetHtml "https://x/reset?t=abc")).Subject =
      (outgoing rejectingEnv (some (.str "bob@canberra.edu.au")) resetSubject
        (resetText "https://x/reset?t=abc") (resetHtml "https://x/reset?t=abc")).Subject ∧
    (outgoing sampleEnv (some (.str "bob@canberra.edu.au")) resetSubject
        (resetText "https://x/reset?t=abc") (resetHtml "https://x/reset?t=abc")).TextBody =
      (outgoing rejectingEnv (some (.str "bob@canberra.edu.au")) resetSubject
        (resetText "https://x/reset?t=abc") (resetHtml "https://x/reset?t=abc")).TextBody ∧
    (outgoing sampleEnv (some (.str "bob@canberra.edu.au")) resetSubject
        (resetText "https://x/reset?t=abc") (resetHtml "https://x/reset?t=abc")).HtmlBody =
      (outgoing rejectingEnv (some (.str "bob@canberra.edu.au")) resetSubject
        (resetText "https://x/reset?t=abc") (resetHtml "https://x/reset?t=abc")).HtmlBody :=
  rendering_deterministic sampleEnv rejectingEnv (sampleRequest sampleResetBody)
    ⟨some "good", .ok sampleResetBody⟩ "good" "good" sampleUser sampleUser sampleResetBody _ _
    ⟨rfl, by decide, rfl⟩ ⟨rfl, by decide, rfl⟩ rfl rfl (fun _ => rfl)
    (List.Mem.head _) (List.Mem.head _)

/-- C14: for an authenticated request whose `type` is the label of a recognised
kind, the handler proceeds to the rendering and send call of that kind (the
`try` block is the verification followed by that call) if and only if every
required field of the kind is truthy; otherwise the answer is 400 and nothing
is sent.  The required fields are `recipient`, `ticket_no`, `comment`,
`ticket_url` for a comment notification, `to` alone for a welcome email, and
`to`, `reset_link` for a password reset. -/
theorem validation_iff_required_fields (env : Env) (req : Request) (token : String)
    (user : User) (requestData : Json) (kind : Kind)
    (hauth : Authenticated env req token user) (hjson : req.json = .ok requestData)
    (htype : requestData.field "type" = some (.str kind.label)) :
    (handlerTry env req =
        ⟨(thenSuccess (sendFor env user requestData kind)).result,
          .getUser token :: (sendFor env user requestData kind).log⟩ ↔
      ∀ name ∈ requiredFields kind, truthy (requestData.field name) = true) ∧
    ((∀ name ∈ requiredFields kind, truthy (requestData.field name) = true) →
      (handler env req).response.status ≠ 400) ∧
    (¬ (∀ name ∈ requiredFields kind, truthy (requestData.field name) = true) →
      (handler env req).response.status = 400 ∧ sentMessages (handler env req).log = []) := by
  have htruthy : truthy (requestData.field "type") = true := by
    rw [htype]; exact truthy_label kind
  have htry := handler_of_dispatch hauth hjson htruthy
  have hmissing : ¬ (∀ name ∈ requiredFields kind, truthy (requestData.field name) = true) →
      dispatch env user requestData =
        ⟨.ok (jsonResponse 400 (errorBody (missingFieldReason kind))), []⟩ := by
    intro hnot
    apply dispatch_of_missing htype
    by_contra hall
    apply hnot
    intro name hname
    by_contra hfalse
    exact hall ⟨name, hname, by simpa using hfalse⟩
  refine ⟨⟨fun h => ?_, fun hall => ?_⟩, fun hall => ?_, fun hnot => ?_⟩
  · by_contra hnot
    rw [htry, hmissing hnot] at h
    injection h with hres _
    exact thenSuccess_result_ne_400 _ _ hres.symm
  · rw [htry, dispatch_of_present htype hall, thenSuccess_log]
  · unfold handler
    rw [htry, dispatch_of_present htype hall]
    unfold thenSuccess
    cases (sendFor env user requestData kind).result <;> simp [jsonResponse]
  · unfold handler
    rw [htry, hmissing hnot]
    exact ⟨rfl, rfl⟩

theorem validation_iff_required_fields_witness :
    (handlerTry sampleEnv (sampleRequest welcomeBodyWithoutName) =
        ⟨(thenSuccess (sendFor sampleEnv sampleUser welcomeBodyWithoutName .welcomeEmail)).result,
          .getUser "good" ::
            (sendFor sampleEnv sampleUser welcomeBodyWithoutName .welcomeEmail).log⟩ ↔
      ∀ name ∈ requiredFields .welcomeEmail,
        truthy (welcomeBodyWithoutName.field name) = true) ∧
    ((∀ name ∈ requiredFields .welcomeEmail,
        truthy (welcomeBodyWithoutName.field name) = true) →
      (handler sampleEnv (sampleRequest welcomeBodyWithoutName)).response.status ≠ 400) ∧
    (¬ (∀ name ∈ requiredFields .welcomeEmail,
        truthy (welcomeBodyWithoutName.field name) = true) →
      (handler sampleEnv (sampleRequest welcomeBodyWithoutName)).response.status = 400 ∧
        sentMessages (handler sampleEnv (sampleRequest welcomeBodyWithoutName)).log = []) :=
  validation_iff_required_fields sampleEnv (sampleRequest welcomeBodyWithoutName) "good"
    sampleUser welcomeBodyWithoutName .welcomeEmail ⟨rfl, by decide, rfl⟩ rfl rfl

/-- C15: the message `sendEmail` hands to the transport has `To`, `Subject`,
`TextBody` and `HtmlBody` equal to the recipient, subject, text and HTML it was
given, `MessageStream` equal to `"outbound"`, and `From` equal to the
configured sender when `SUPABASE_SMTP_SENDER` holds a non-empty value and to
`"no-reply@scitech.support"` when it is unset (or empty). -/
theorem transport_message_fields (env : Env) (toAddr : Option Json)
    (subject text html : String) :
    ∃ msg, (sendEmail env toAddr subject text html).log = [.sendEmail msg] ∧
      msg.To = toAddr ∧ msg.Subject = subject ∧ msg.TextBody = text ∧ msg.HtmlBody = html ∧
      msg.MessageStream = "outbound" ∧
      (∀ sender, env.smtpSender = some sender → sender ≠ "" → msg.From = sender) ∧
      (env.smtpSender = none → msg.From = "no-reply@scitech.support") ∧
      (env.smtpSender = some "" → msg.From = "no-reply@scitech.support") := by
  refine ⟨outgoing env toAddr subject text html, sendEmail_log _ _ _ _ _, rfl, rfl, rfl, rfl,
    rfl, ?_, ?_, ?_⟩
  · intro sender hsome hne
    simp [outgoing, senderAddress, hsome, hne]
  · intro hnone
    simp [outgoing, senderAddress, hnone]
  · intro hempty
    simp [outgoing, senderAddress, hempty]

/-! ## Missing fields, missing name, failing verifier -/

/-- C16, as the code has it: an authenticated request of a recognised kind in
which some required field is missing or falsy is answered 400 with a reason
fixed by the kind alone, whichever field is missing; the three reasons are
pairwise different, so the reason identifies the kind. -/
theorem missing_field_reason_by_kind (env : Env) (req : Request) (token : String)
    (user : User) (requestData : Json) (kind : Kind)
    (hauth : Authenticated env req token user) (hjson : req.json = .ok requestData)
    (htype : requestData.field "type" = some (.str kind.label))
    (hmissing : ∃ name ∈ requiredFields kind, truthy (requestData.field name) = false) :
    (handler env req).response = jsonResponse 400 (errorBody (missingFieldReason kind)) ∧
      sentMessages (handler env req).log = [] ∧
      ∀ other : Kind, missingFieldReason other = missingFieldReason kind → other = kind := by
  have htruthy : truthy (requestData.field "type") = true := by
    rw [htype]; exact truthy_label kind
  refine ⟨?_, ?_, ?_⟩
  · unfold handler
    rw [handler_of_dispatch hauth hjson htruthy, dispatch_of_missing htype hmissing]
  · unfold handler
    rw [handler_of_dispatch hauth hjson htruthy, dispatch_of_missing htype hmissing]
    rfl
  · intro other h
    cases other <;> cases kind <;> first | rfl | (revert h; decide)

theorem missing_field_reason_by_kind_witness :
    (handler sampleEnv (sampleRequest commentBodyWithoutUrl)).response =
        jsonResponse 400 (errorBody (missingFieldReason .commentNotification)) ∧
      sentMessages (handler sampleEnv (sampleRequest commentBodyWithoutUrl)).log = [] ∧
      ∀ other : Kind,
        missingFieldReason other = missingFieldReason .commentNotification →
          other = .commentNotification :=
  missing_field_reason_by_kind sampleEnv (sampleRequest commentBodyWithoutUrl) "good"
    sampleUser commentBodyWithoutUrl .commentNotification ⟨rfl, by decide, rfl⟩ rfl rfl
    ⟨"ticket_url", by simp [requiredFields], rfl⟩

/-- C16 fails on two comment notifications that each lack one required field:
the first lacks only `recipient`, the second lacks only `ticket_url`, and both
receive the same 400 reason, which names neither field. -/
theorem missing_field_reason_same_for_different_fields :
    commentBodyWithoutRecipient.field "recipient" = none ∧
      truthy (commentBodyWithoutRecipient.field "ticket_url") = true ∧
      commentBodyWithoutUrl.field "ticket_url" = none ∧
      truthy (commentBodyWithoutUrl.field "recipient") = true ∧
      (handler sampleEnv (sampleRequest commentBodyWithoutRecipient)).response =
        jsonResponse 400 (errorBody "Missing required fields for comment notification") ∧
      (handler sampleEnv (sampleRequest commentBodyWithoutUrl)).response =
        jsonResponse 400 (errorBody "Missing required fields for comment notification") ∧
      (handler sampleEnv (sampleRequest commentBodyWithoutRecipient)).response.body =
        (handler sampleEnv (sampleRequest commentBodyWithoutUrl)).response.body :=
  ⟨rfl, rfl, rfl, rfl, rfl, rfl, rfl⟩

/-- C17 on the code: an authenticated welcome request with a `to` and no
`full_name` is accepted and sent, answered 200, and its text and HTML bodies
greet the recipient as `undefined`: no default name is supplied. -/
theorem welcome_without_name_renders_undefined :
    welcomeBodyWithoutName.field "full_name" = none ∧
      (handler sampleEnv (sampleRequest welcomeBodyWithoutName)).response =
        jsonResponse 200 successBody ∧
      sentMessages (handler sampleEnv (sampleRequest welcomeBodyWithoutName)).log =
        [outgoing sampleEnv (some (.str "bob@canberra.edu.au")) welcomeSubject
          (welcomeText "undefined") (welcomeHtml "undefined")] ∧
      Contains (welcomeText "undefined") "Hi undefined," ∧
      Contains (welcomeHtml "undefined") "<p>Hi undefined,</p>" := by
  refine ⟨rfl, rfl, rfl, ?_, ?_⟩
  · exact ⟨"", "\n" ++
      "\n" ++
      "Your account has been created successfully!\n" ++
      "\n" ++
      "You can now log in to track your support requests.\n" ++
      "\n" ++
      "If you forgot your password, you can reset it from the login page.\n" ++
      "\n" ++
      "Best regards,\n" ++
      "SciTech Support Team", rfl⟩
  · exact ⟨"\n" ++
      "    <div style=\"font-family: Arial, sans-serif; max-width: 600px; margin: 0 auto;\">\n" ++
      "      <h2 style=\"color: #333;\">Welcome to SciTech Support</h2>\n" ++
      "      ", "\n" ++
      "      <p>Your account has been created successfully!</p>\n" ++
      "      <p>You can now log in to track your support requests.</p>\n" ++
      "      <p>If you forgot your password, you can reset it from the login page.</p>\n" ++
      "      <p>Best regards,<br>SciTech Support Team</p>\n" ++
      "    </div>\n" ++
      "  ", rfl⟩

/-- C18, as the code has it: for a request carrying a token, when the verifier
resolves with an error or without a user the answer is 401 with
`{error: "Invalid authorization token"}`; when the verification call itself
rejects (throws) the catch block answers 500 with the thrown value's report.
In both cases only the verifier is called. -/
theorem verification_failure_response (env : Env) (req : Request) (token : String)
    (htoken : tokenOf req = some token) (hne : token ≠ "") :
    (∀ user error, env.getUser token = .returned user error → (error ≠ none ∨ user = none) →
        (handler env req).response =
          jsonResponse 401 (errorBody "Invalid authorization token") ∧
        (handler env req).log = [.getUser token]) ∧
      (∀ e, env.getUser token = .raised e →
        (handler env req).response = jsonResponse 500 (errorBody e.report) ∧
        (handler env req).log = [.getUser token]) := by
  constructor
  · intro user error hverify hreject
    have htry : handlerTry env req =
        ⟨.ok (jsonResponse 401 (errorBody "Invalid authorization token")), [.getUser token]⟩ := by
      unfold handlerTry
      rw [htoken]
      simp only [hne, if_false, hverify]
      cases error with
      | some _ => cases user <;> rfl
      | none =>
        cases user with
        | none => rfl
        | some _ => simp at hreject
    unfold handler
    rw [htry]
    exact ⟨rfl, rfl⟩
  · intro e hraised
    have htry : handlerTry env req = ⟨.error e, [.getUser token]⟩ := by
      unfold handlerTry
      rw [htoken]
      simp only [hne, if_false, hraised]
    unfold handler
    rw [htry]
    exact ⟨rfl, rfl⟩

theorem verification_failure_response_witness :
    (∀ user error, unreachableVerifierEnv.getUser "good" = .returned user error →
        (error ≠ none ∨ user = none) →
        (handler unreachableVerifierEnv (sampleRequest sampleResetBody)).response =
          jsonResponse 401 (errorBody "Invalid authorization token") ∧
        (handler unreachableVerifierEnv (sampleRequest sampleResetBody)).log =
          [.getUser "good"]) ∧
      (∀ e, unreachableVerifierEnv.getUser "good" = .raised e →
        (handler unreachableVerifierEnv (sampleRequest sampleResetBody)).response =
          jsonResponse 500 (errorBody e.report) ∧
        (handler unreachableVerifierEnv (sampleRequest sampleResetBody)).log =
          [.getUser "good"]) :=
  verification_failure_response unreachableVerifierEnv (sampleRequest sampleResetBody) "good"
    rfl (by decide)

/-- C18 fails when the verification call itself fails: with a verifier that
rejects with the error "fetch failed", a request carrying the token `good` is
answered 500 with `{error: "fetch failed"}`, not 401. -/
theorem verifier_raises_500 :
    tokenOf (sampleRequest sampleResetBody) = some "good" ∧
      unreachableVerifierEnv.getUser "good" = .raised (.error "fetch failed") ∧
      (handler unreachableVerifierEnv (sampleRequest sampleResetBody)).response =
        jsonResponse 500 (errorBody "fetch failed") ∧
      (handler unreachableVerifierEnv (sampleRequest sampleResetBody)).response.status ≠ 401 :=
  ⟨rfl, rfl, rfl, by decide⟩

/-! ## Single attempt and verbatim comment -/

/-- C19: in every run the transport is called at most once; when a call is
rejected, that call is the only one of the run (no retry) and the answer is the
500 error response carrying the rejection's report. -/
theorem at_most_one_send (env : Env) (req : Request) :
    (sentMessages (handler env req).log).length ≤ 1 ∧
      ∀ msg e, msg ∈ sentMessages (handler env req).log → env.send msg = .error e →
        sentMessages (handler env req).log = [msg] ∧
          (handler env req).response = jsonResponse 500 (errorBody e.report) := by
  rcases handler_cases env req with
    ⟨sent, ack, hlog, hsend, _⟩ | ⟨sent, e', hlog, hsend, hres⟩ | ⟨hlog, _⟩
  · refine ⟨by rw [hlog]; exact Nat.le_refl 1, fun msg e hmem hfail => ?_⟩
    rw [hlog, List.mem_singleton] at hmem
    subst hmem
    rw [hsend] at hfail
    cases hfail
  · refine ⟨by rw [hlog]; exact Nat.le_refl 1, fun msg e hmem hfail => ?_⟩
    rw [hlog, List.mem_singleton] at hmem
    subst hmem
    rw [hsend] at hfail
    injection hfail with he
    subst he
    exact ⟨hlog, hres⟩
  · refine ⟨by rw [hlog]; exact Nat.zero_le 1, fun msg e hmem _ => ?_⟩
    rw [hlog] at hmem
    cases hmem

theorem contains_commentText_comment (commenterName ticketNo comment ticketUrl : String) :
    Contains (commentText commenterName ticketNo comment ticketUrl) comment := by
  refine ⟨"Hello,\n" ++
    "\n" ++
    commenterName ++
    " has added a new comment to your support ticket #" ++
    ticketNo ++
    ":\n" ++
    "\n" ++
    "\"", "\"\n" ++
    "\n" ++
    "View and respond to this ticket here: " ++
    ticketUrl ++
    "\n" ++
    "\n" ++
    "Best regards,\n" ++
    "SciTech Support Team", ?_⟩
  simp only [commentText, String.append_assoc]

theorem contains_commentText_url (commenterName ticketNo comment ticketUrl : String) :
    Contains (commentText commenterName ticketNo comment ticketUrl) ticketUrl := by
  refine ⟨"Hello,\n" ++
    "\n" ++
    commenterName ++
    " has added a new comment to your support ticket #" ++
    ticketNo ++
    ":\n" ++
    "\n" ++
    "\"" ++
    comment ++
    "\"\n" ++
    "\n" ++
    "View and respond to this ticket here: ", "\n" ++
    "\n" ++
    "Best regards,\n" ++
    "SciTech Support Team", ?_⟩
  simp only [commentText, String.append_assoc]

theorem contains_commentHtml_comment (commenterName ticketNo comment ticketUrl : String) :
    Contains (commentHtml commenterName ticketNo comment ticketUrl) comment := by
  refine ⟨"\n" ++
    "    <div style=\"font-family: Arial, sans-serif; max-width: 600px; margin: 0 auto;\">\n" ++
    "      <h2 style=\"color: #333;\">New comment on your support ticket #" ++
    ticketNo ++
    "</h2>\n" ++
    "      <p>Hello,</p>\n" ++
    "      <p><strong>" ++
    commenterName ++
    "</strong> has added a new comment to your support ticket:</p>\n" ++
    "      <div style=\"background: #f5f5f5; padding: 15px; border-left: 4px solid #2196F3; margin: 15px 0;\">\n" ++
    "        ", "\n" ++
    "      </div>\n" ++
    "      <p>View and respond to this ticket here: <a href=\"" ++
    ticketUrl ++
    "\">" ++
    ticketUrl ++
    "</a></p>\n" ++
    "      <p>Best regards,<br>SciTech Support Team</p>\n" ++
    "    </div>\n" ++
    "  ", ?_⟩
  simp only [commentHtml, String.append_assoc]

theorem contains_commentHtml_anchor (commenterName ticketNo comment ticketUrl : String) :
    Contains (commentHtml commenterName ticketNo comment ticketUrl)
      ("<a href=\"" ++ ticketUrl ++ "\">" ++ ticketUrl ++ "</a>") := by
  have hopen : "      <p>View and respond to this ticket here: <a href=\"" =
      "      <p>View and respond to this ticket here: " ++ "<a href=\"" := rfl
  have hclose : "</a></p>\n" = "</a>" ++ "</p>\n" := rfl
  refine ⟨"\n" ++
    "    <div style=\"font-family: Arial, sans-serif; max-width: 600px; margin: 0 auto;\">\n" ++
    "      <h2 style=\"color: #333;\">New comment on your support ticket #" ++
    ticketNo ++
    "</h2>\n" ++
    "      <p>Hello,</p>\n" ++
    "      <p><strong>" ++
    commenterName ++
    "</strong> has added a new comment to your support ticket:</p>\n" ++
    "      <div style=\"background: #f5f5f5; padding: 15px; border-left: 4px solid #2196F3; margin: 15px 0;\">\n" ++
    "        " ++
    comment ++
    "\n" ++
    "      </div>\n" ++
    "      <p>View and respond to this ticket here: ", "</p>\n" ++
    "      <p>Best regards,<br>SciTech Support Team</p>\n" ++
    "    </div>\n" ++
    "  ", ?_⟩
  unfold commentHtml
  rw [hopen, hclose]
  simp only [String.append_assoc]

/-- C20: for every comment string `c` (whatever characters it holds),
`sendCommentNotification` hands the transport one message whose text body and
HTML body both contain `c` unchanged, whose text body contains the ticket URL
`u`, and whose HTML body contains the anchor `<a href="u">u</a>`. -/
theorem comment_rendered_verbatim (env : Env) (recipient : Option Json)
    (t c u commenterEmail : String) :
    ∃ msg,
      (sendCommentNotification env recipient (some (.str t)) (some (.str c)) (some (.str u))
        commenterEmail).log = [.sendEmail msg] ∧
      Contains msg.TextBody c ∧ Contains msg.HtmlBody c ∧
      Contains msg.TextBody u ∧
      Contains msg.HtmlBody ("<a href=\"" ++ u ++ "\">" ++ u ++ "</a>") := by
  refine ⟨outgoing env recipient (commentSubject t)
    (commentText (commenterNameOf commenterEmail) t c u)
    (commentHtml (commenterNameOf commenterEmail) t c u), ?_,
    contains_commentText_comment _ _ _ _, contains_commentHtml_comment _ _ _ _,
    contains_commentText_url _ _ _ _, contains_commentHtml_anchor _ _ _ _⟩
  have hsend : sendCommentNotification env recipient (some (.str t)) (some (.str c))
      (some (.str u)) commenterEmail =
      sendEmail env recipient (commentSubject t)
        (commentText (commenterNameOf commenterEmail) t c u)
        (commentHtml (commenterNameOf commenterEmail) t c u) := rfl
  rw [hsend, sendEmail_log]

/-! ## Token extraction -/

theorem replaceFirstChars_at_start (pat rest : List Char) :
    replaceFirstChars pat [] (pat ++ rest) = rest := by
  cases h : pat ++ rest with
  | nil =>
    have hpat : pat = [] := (List.append_eq_nil.1 h).1
    have hrest : rest = [] := (List.append_eq_nil.1 h).2
    subst hpat hrest
    rfl
  | cons c cs =>
    unfold replaceFirstChars
    have hprefix : pat.isPrefixOf (c :: cs) = true := by
      rw [← h]
      exact List.isPrefixOf_iff_prefix.2 (List.prefix_append pat rest)
    rw [if_pos hprefix, ← h, List.drop_left, List.nil_append]

theorem replaceFirstChars_of_no_occurrence (pat rep : List Char) (hpat : pat ≠ []) :
    ∀ l : List Char, (∀ pre post, l ≠ pre ++ pat ++ post) → replaceFirstChars pat rep l = l := by
  intro l
  induction l with
  | nil =>
    intro _
    unfold replaceFirstChars
    have hfalse : ¬ pat.isPrefixOf [] = true := by
      intro h
      have hp := List.isPrefixOf_iff_prefix.1 h
      exact hpat (List.eq_nil_of_prefix_nil hp)
    rw [if_neg hfalse]
  | cons c cs ih =>
    intro hno
    unfold replaceFirstChars
    have hfalse : ¬ pat.isPrefixOf (c :: cs) = true := by
      intro h
      obtain ⟨post, hpost⟩ := List.isPrefixOf_iff_prefix.1 h
      exact hno [] post (by simpa using hpost.symm)
    rw [if_neg hfalse, ih]
    intro pre post hEq
    exact hno (c :: pre) post (by simp [hEq])

theorem replaceFirstChars_first_occurrence (pat : List Char) :
    ∀ a b : List Char, (∀ pre post, a ++ pat.dropLast ≠ pre ++ pat ++ post) →
      replaceFirstChars pat [] (a ++ pat ++ b) = a ++ b := by
  intro a
  induction a with
  | nil =>
    intro b _
    simpa using replaceFirstChars_at_start pat b
  | cons c a ih =>
    intro b hno
    have hfalse : ¬ pat.isPrefixOf (c :: (a ++ pat ++ b)) = true := by
      intro h
      have hp : pat <+: (c :: a ++ pat.dropLast) ++ (pat.drop (pat.length - 1) ++ b) := by
        have hsplit : pat = pat.dropLast ++ pat.drop (pat.length - 1) := by
          rw [List.dropLast_eq_take]
          exact (List.take_append_drop _ _).symm
        have hp' := List.isPrefixOf_iff_prefix.1 h
        have hEq : c :: (a ++ pat ++ b) =
            (c :: a ++ pat.dropLast) ++ (pat.drop (pat.length - 1) ++ b) := by
          conv_lhs => rw [hsplit]
          simp [List.append_assoc]
        rw [← hEq]
        exact hp'
      have hlen : pat.length ≤ (c :: a ++ pat.dropLast).length := by
        simp [List.length_dropLast]
        omega
      obtain ⟨post, hpost⟩ :=
        List.prefix_of_prefix_length_le hp (List.prefix_append _ _) hlen
      exact hno [] post (by simpa using hpost.symm)
    have hstep : replaceFirstChars pat [] (c :: a ++ pat ++ b) =
        c :: replaceFirstChars pat [] (a ++ pat ++ b) := by
      show replaceFirstChars pat [] (c :: (a ++ pat ++ b)) = _
      rw [replaceFirstChars, if_neg hfalse]
    rw [hstep, ih b]
    · rfl
    · intro pre post hEq
      exact hno (c :: pre) post (by simp [hEq])

theorem contains_iff_data (hay needle : String) :
    Contains hay needle ↔ ∃ pre post : List Char, hay.data = pre ++ needle.data ++ post := by
  constructor
  · rintro ⟨before, after, h⟩
    exact ⟨before.data, after.data, by rw [h]; simp [String.data_append]⟩
  · rintro ⟨pre, post, h⟩
    refine ⟨⟨pre⟩, ⟨post⟩, ?_⟩
    apply String.ext
    simp [String.data_append, h]

theorem jsReplace_bearer_at_start (t : String) : jsReplace ("Bearer " ++ t) "Bearer " "" = t := by
  unfold jsReplace
  apply String.ext
  have h := replaceFirstChars_at_start "Bearer ".data t.data
  simpa [String.data_append] using h

theorem jsReplace_of_not_contains (header : String) (h : ¬ Contains header "Bearer ") :
    jsReplace header "Bearer " "" = header := by
  unfold jsReplace
  apply String.ext
  apply replaceFirstChars_of_no_occurrence "Bearer ".data "".data (by decide)
  intro pre post hEq
  exact h ((contains_iff_data _ _).2 ⟨pre, post, hEq⟩)

theorem jsReplace_first_occurrence (a b : String) (h : ¬ Contains (a ++ "Bearer") "Bearer ") :
    jsReplace (a ++ "Bearer " ++ b) "Bearer " "" = a ++ b := by
  unfold jsReplace
  apply String.ext
  have hdata : (a ++ "Bearer " ++ b).data = a.data ++ "Bearer ".data ++ b.data := by
    simp [String.data_append]
  rw [hdata]
  have hrep := replaceFirstChars_first_occurrence "Bearer ".data a.data b.data (by
    intro pre post hEq
    apply h
    apply (contains_iff_data _ _).2
    refine ⟨pre, post, ?_⟩
    rw [String.data_append]
    exact hEq)
  simpa [String.data_append] using hrep

theorem verifiedTokens_of_sendShape {env : Env} {o : Outcome Json} (h : SendShape env o) :
    verifiedTokens o.log = [] := by
  rcases h with ⟨e, rfl⟩ | ⟨toAddr, subject, text, html, rfl⟩
  · rfl
  · rw [sendEmail_log]
    rfl

theorem verifiedTokens_dispatch (env : Env) (user : User) (requestData : Json) :
    verifiedTokens (dispatch env user requestData).log = [] := by
  unfold dispatch
  split
  · split
    · rfl
    · rw [thenSuccess_log]
      exact verifiedTokens_of_sendShape (sendCommentNotification_shape _ _ _ _ _ _)
  · split
    · split
      · rfl
      · rw [thenSuccess_log]
        exact verifiedTokens_of_sendShape (sendWelcomeEmail_shape _ _ _)
    · split
      · split
        · rfl
        · rw [thenSuccess_log]
          exact verifiedTokens_of_sendShape (sendPasswordResetEmail_shape _ _ _)
      · rfl

theorem verifiedTokens_handleBody (env : Env) (user : User) (req : Request) :
    verifiedTokens (handleBody env user req).log = [] := by
  unfold handleBody
  split
  · rfl
  · split
    · rfl
    · split
      · rfl
      · exact verifiedTokens_dispatch _ _ _

theorem verifiedTokens_handler {env : Env} {req : Request} {token : String}
    (htoken : tokenOf req = some token) (hne : token ≠ "") :
    verifiedTokens (handler env req).log = [token] := by
  rw [handler_log]
  unfold handlerTry
  rw [htoken]
  simp only [hne, if_false]
  split
  · rfl
  · rfl
  · rfl
  · show token :: verifiedTokens _ = [token]
    rw [verifiedTokens_handleBody]

theorem normalizeHeaderValue_of_trimmed (chars : List Char) (first final : Char)
    (hfirst : isHttpWhitespace first = false) (hfinal : isHttpWhitespace final = false) :
    normalizeHeaderValue ⟨first :: (chars ++ [final])⟩ = ⟨first :: (chars ++ [final])⟩ := by
  unfold normalizeHeaderValue
  apply String.ext
  show ((List.dropWhile isHttpWhitespace (first :: (chars ++ [final]))).reverse.dropWhile
    isHttpWhitespace).reverse = first :: (chars ++ [final])
  rw [List.dropWhile_cons_of_neg (by simp [hfirst])]
  have hrev : (first :: (chars ++ [final])).reverse = final :: (chars.reverse ++ [first]) := by
    simp
  rw [hrev, List.dropWhile_cons_of_neg (by simp [hfinal]), ← hrev, List.reverse_reverse]

theorem normalizeHeaderValue_bearer (t : String) (final : Char)
    (hlast : t.data.getLast? = some final) (hfinal : isHttpWhitespace final = false) :
    normalizeHeaderValue ("Bearer " ++ t) = "Bearer " ++ t := by
  obtain ⟨chars, hchars⟩ := List.getLast?_eq_some_iff.1 hlast
  have hdata : "Bearer " ++ t = ⟨'B' :: ("earer ".data ++ chars ++ [final])⟩ := by
    apply String.ext
    rw [String.data_append, hchars]
    rfl
  rw [hdata]
  exact normalizeHeaderValue_of_trimmed _ 'B' final (by decide) hfinal

theorem normalizeHeaderValue_of_blank (sent : String)
    (h : ∀ c ∈ sent.data, isHttpWhitespace c = true) : normalizeHeaderValue sent = "" := by
  unfold normalizeHeaderValue
  apply String.ext
  have hdrop : sent.data.dropWhile isHttpWhitespace = [] :=
    List.dropWhile_eq_nil_iff.2 h
  show ((List.dropWhile isHttpWhitespace sent.data).reverse.dropWhile isHttpWhitespace).reverse
    = []
  rw [hdrop]
  rfl

theorem handler_of_empty_token (env : Env) (req : Request) (h : tokenOf req = some "") :
    handler env req = ⟨jsonResponse 401 (errorBody "Authorization token required"), []⟩ := by
  have htry : handlerTry env req =
      ⟨.ok (jsonResponse 401 (errorBody "Authorization token required")), []⟩ := by
    unfold handlerTry
    rw [h]
    rfl
  unfold handler
  rw [htry]

/-- C21, as the code has it.  The token is the value `headers.get` returns
for `Authorization` with the first occurrence of `"Bearer "` removed, and a
non-empty token is what the verifier receives: the value `"Bearer " + t` with
`t` non-empty yields `t`, and a non-empty value without `"Bearer "` is passed
whole.  An empty value yields the empty token and is answered 401 with
`{error: "Authorization token required"}` without any collaborator call.  In
terms of the header as sent, whose leading and trailing whitespace are
stripped: `"Bearer " + t` arrives unchanged when `t` does not end in
whitespace, and yields `t`; a header sent as exactly `"Bearer "` arrives as
`"Bearer"` and is passed whole to the verifier; a header sent empty or blank
is answered 401 "Authorization token required" without calling the verifier. -/
theorem token_extraction (env : Env) (json : Except Thrown Json) :
    (∀ a b : String, ¬ Contains (a ++ "Bearer") "Bearer " →
        tokenOf ⟨some (a ++ "Bearer " ++ b), json⟩ = some (a ++ b)) ∧
      (∀ req token, tokenOf req = some token → token ≠ "" →
        verifiedTokens (handler env req).log = [token]) ∧
      (∀ t : String, t ≠ "" →
        tokenOf ⟨some ("Bearer " ++ t), json⟩ = some t ∧
          verifiedTokens (handler env ⟨some ("Bearer " ++ t), json⟩).log = [t]) ∧
      (∀ header : String, header ≠ "" → ¬ Contains header "Bearer " →
        tokenOf ⟨some header, json⟩ = some header ∧
          verifiedTokens (handler env ⟨some header, json⟩).log = [header]) ∧
      handler env ⟨some "", json⟩ =
        ⟨jsonResponse 401 (errorBody "Authorization token required"), []⟩ ∧
      (∀ (t : String) (final : Char), t.data.getLast? = some final →
        isHttpWhitespace final = false →
        receivedRequest (some ("Bearer " ++ t)) json = ⟨some ("Bearer " ++ t), json⟩ ∧
          verifiedTokens (handler env (receivedRequest (some ("Bearer " ++ t)) json)).log =
            [t]) ∧
      (receivedRequest (some "Bearer ") json = ⟨some "Bearer", json⟩ ∧
        verifiedTokens (handler env (receivedRequest (some "Bearer ") json)).log =
          ["Bearer"]) ∧
      (∀ sent : String, (∀ c ∈ sent.data, isHttpWhitespace c = true) →
        handler env (receivedRequest (some sent) json) =
          ⟨jsonResponse 401 (errorBody "Authorization token required"), []⟩) := by
  have hbearer : ∀ t : String, tokenOf ⟨some ("Bearer " ++ t), json⟩ = some t := by
    intro t
    show some (jsReplace ("Bearer " ++ t) "Bearer " "") = some t
    rw [jsReplace_bearer_at_start]
  refine ⟨fun a b h => ?_, fun req token htoken hne => verifiedTokens_handler htoken hne,
    fun t ht => ⟨hbearer t, verifiedTokens_handler (hbearer t) ht⟩, fun header hne hno => ?_,
    handler_of_empty_token env _ rfl, fun t final hlast hfinal => ?_, ⟨rfl, ?_⟩,
    fun sent hblank => ?_⟩
  · show some (jsReplace (a ++ "Bearer " ++ b) "Bearer " "") = some (a ++ b)
    rw [jsReplace_first_occurrence a b h]
  · have htoken : tokenOf ⟨some header, json⟩ = some header := by
      show some (jsReplace header "Bearer " "") = some header
      rw [jsReplace_of_not_contains header hno]
    exact ⟨htoken, verifiedTokens_handler htoken hne⟩
  · have hreq : receivedRequest (some ("Bearer " ++ t)) json =
        ⟨some ("Bearer " ++ t), json⟩ := by
      show (⟨some (normalizeHeaderValue ("Bearer " ++ t)), json⟩ : Request) = _
      rw [normalizeHeaderValue_bearer t final hlast hfinal]
    have hne : t ≠ "" := by
      intro hempty
      rw [hempty] at hlast
      cases hlast
    rw [hreq]
    exact ⟨rfl, verifiedTokens_handler (hbearer t) hne⟩
  · exact verifiedTokens_handler (show tokenOf (receivedRequest (some "Bearer ") json) =
      some "Bearer" from rfl) (by decide)
  · apply handler_of_empty_token
    show some (jsReplace (normalizeHeaderValue sent) "Bearer " "") = some ""
    rw [normalizeHeaderValue_of_blank sent hblank]
    rfl

/-- C21 fails in two places.  A header sent as exactly `"Bearer "` arrives as
`"Bearer"`: the token is not empty, the verifier is called with `"Bearer"` and
the answer is "Invalid authorization token", not "Authorization token
required".  A header sent with an empty value does not contain `"Bearer "`, yet
it is answered 401 "Authorization token required" and the verifier is not
called. -/
theorem token_extraction_edge_cases :
    (tokenOf (receivedRequest (some "Bearer ") (.ok sampleResetBody)) = some "Bearer" ∧
        verifiedTokens
          (handler sampleEnv (receivedRequest (some "Bearer ") (.ok sampleResetBody))).log =
          ["Bearer"] ∧
        (handler sampleEnv (receivedRequest (some "Bearer ") (.ok sampleResetBody))).response =
          jsonResponse 401 (errorBody "Invalid authorization token")) ∧
      (¬ Contains "" "Bearer " ∧
        (handler sampleEnv (receivedRequest (some "") (.ok sampleResetBody))).response =
          jsonResponse 401 (errorBody "Authorization token required") ∧
        verifiedTokens
          (handler sampleEnv (receivedRequest (some "") (.ok sampleResetBody))).log = []) := by
  refine ⟨⟨rfl, rfl, rfl⟩, ?_, rfl, rfl⟩
  rintro ⟨before, after, h⟩
  have hlen := congrArg String.length h
  simp only [String.length_append] at hlen
  have h7 : "Bearer ".length = 7 := rfl
  have h0 : "".length = 0 := rfl
  omega

/-! ## Totality and the catch-all -/

theorem handlerTry_ok_status {env : Env} {req : Request} {response : Response}
    (h : (handlerTry env req).result = .ok response) :
    response.status = 200 ∨ response.status = 400 ∨ response.status = 401 := by
  rcases handlerTry_classified env req with
    ⟨_, _, _, _, hres⟩ | ⟨_, e, _, _, hres⟩ | ⟨_, ⟨e, hres⟩ | ⟨status, reason, hstatus, hres⟩⟩
  · rw [hres] at h
    injection h with h
    subst h
    exact Or.inl rfl
  · rw [hres] at h
    cases h
  · rw [hres] at h
    cases h
  · rw [hres] at h
    injection h with h
    subst h
    rcases hstatus with h400 | h401
    · exact Or.inr (Or.inl h400)
    · exact Or.inr (Or.inr h401)

/-- C22: the handler always returns a response, with status 200, 400, 401 or
500, whatever the request, the verifier, the body and the transport do; every
value thrown inside the `try` block is turned into status 500 with
`{error: report}`, where the report is the error's message (or `String(value)`
for a thrown non-error); and status 500 arises in no other way. -/
theorem handler_total (env : Env) (req : Request) :
    ((handler env req).response.status = 200 ∨ (handler env req).response.status = 400 ∨
        (handler env req).response.status = 401 ∨ (handler env req).response.status = 500) ∧
      (∀ e, (handlerTry env req).result = .error e →
        (handler env req).response = jsonResponse 500 (errorBody e.report)) ∧
      ((handler env req).response.status = 500 →
        ∃ e, (handlerTry env req).result = .error e) := by
  cases hres : (handlerTry env req).result with
  | error e =>
    have hresp : (handler env req).response = jsonResponse 500 (errorBody e.report) := by
      unfold handler
      rw [hres]
    refine ⟨Or.inr (Or.inr (Or.inr (by rw [hresp]; rfl))), fun e' he' => ?_, fun _ => ⟨e, rfl⟩⟩
    injection he' with he'
    subst he'
    exact hresp
  | ok response =>
    have hresp : (handler env req).response = response := by
      unfold handler
      rw [hres]
    have hstatus := handlerTry_ok_status hres
    rw [hresp]
    refine ⟨?_, ?_, ?_⟩
    · rcases hstatus with h | h | h
      · exact Or.inl h
      · exact Or.inr (Or.inl h)
      · exact Or.inr (Or.inr (Or.inl h))
    · intro e he
      cases he
    · intro h500
      rcases hstatus with h | h | h <;> omega

/-- C23: for an authenticated request whose body cannot be parsed (`req.json()`
rejects with `e`), the answer is the 500 of the catch block with the parser's
message as `error`; it is neither 200 nor a 400 validation error, and the
transport is never called. -/
theorem malformed_body_500 (env : Env) (req : Request) (token : String) (user : User)
    (e : Thrown) (hauth : Authenticated env req token user) (hjson : req.json = .error e) :
    (handler env req).response = jsonResponse 500 (errorBody e.report) ∧
      (handler env req).response.status ≠ 200 ∧ (handler env req).response.status ≠ 400 ∧
      sentMessages (handler env req).log = [] := by
  have hbody : handleBody env user req = ⟨.error e, []⟩ := by
    unfold handleBody
    rw [hjson]
  have hrun : handler env req = ⟨jsonResponse 500 (errorBody e.report), [.getUser token]⟩ := by
    unfold handler
    rw [handlerTry_of_authenticated hauth, hbody]
  rw [hrun]
  refine ⟨rfl, ?_, ?_, rfl⟩
  · show (500 : Nat) ≠ 200
    decide
  · show (500 : Nat) ≠ 400
    decide

theorem malformed_body_500_witness :
    (handler sampleEnv
        ⟨some "Bearer good", .error (.error "Unexpected end of JSON input")⟩).response =
        jsonResponse 500
          (errorBody (Thrown.error "Unexpected end of JSON input").report) ∧
      (handler sampleEnv
        ⟨some "Bearer good",
          .error (.error "Unexpected end of JSON input")⟩).response.status ≠ 200 ∧
      (handler sampleEnv
        ⟨some "Bearer good",
          .error (.error "Unexpected end of JSON input")⟩).response.status ≠ 400 ∧
      sentMessages (handler sampleEnv
        ⟨some "Bearer good", .error (.error "Unexpected end of JSON input")⟩).log =
        [] :=
  malformed_body_500 sampleEnv
    ⟨some "Bearer good", .error (.error "Unexpected end of JSON input")⟩ "good"
    sampleUser (.error "Unexpected end of JSON input") ⟨rfl, by decide, rfl⟩ rfl

/-! ## Callers without a usable email -/

theorem commenterNameOf_no_at (commenterEmail : String) (h : '@' ∉ commenterEmail.data) :
    commenterNameOf commenterEmail = commenterEmail := by
  rw [commenterNameOf_eq]
  apply String.ext
  show commenterEmail.data.takeWhile (fun c => c ≠ '@') = commenterEmail.data
  rw [List.takeWhile_eq_self_iff]
  intro c hc
  have hne : c ≠ '@' := fun hEq => h (hEq ▸ hc)
  simpa using hne

/-- C24: for an authenticated `"comment_notification"` request with its four
fields truthy and renderable, one message is sent whose bodies carry the
commenter name `commenterEmail.split("@")[0]` of `user.email ?? ""`; that name
is the empty string when the caller has no email address, and the whole email
when the email contains no `@`. -/
theorem comment_notification_without_local_part (env : Env) (req : Request) (token : String)
    (user : User) (requestData : Json) (t c u : String)
    (hauth : Authenticated env req token user) (hjson : req.json = .ok requestData)
    (htype : requestData.field "type" = some (.str "comment_notification"))
    (hfields : ∀ name ∈ requiredFields .commentNotification,
      truthy (requestData.field name) = true)
    (ht : toStr (requestData.field "ticket_no") = .ok t)
    (hc : toStr (requestData.field "comment") = .ok c)
    (hu : toStr (requestData.field "ticket_url") = .ok u) :
    (∃ msg, sentMessages (handler env req).log = [msg] ∧
        msg.TextBody = commentText (commenterNameOf (user.email.getD "")) t c u ∧
        msg.HtmlBody = commentHtml (commenterNameOf (user.email.getD "")) t c u) ∧
      (user.email = none → commenterNameOf (user.email.getD "") = "") ∧
      (∀ email : String, user.email = some email → '@' ∉ email.data →
        commenterNameOf (user.email.getD "") = email) := by
  have hrender : IsRenderingOf env user requestData .commentNotification
      (outgoing env (requestData.field "recipient") (commentSubject t)
        (commentText (commenterNameOf (user.email.getD "")) t c u)
        (commentHtml (commenterNameOf (user.email.getD "")) t c u)) :=
    ⟨t, c, u, ht, hc, hu, rfl⟩
  have hlabel : requestData.field "type" = some (.str Kind.commentNotification.label) := htype
  obtain ⟨hlog, _⟩ := handler_of_valid hauth hjson hlabel hfields hrender
  refine ⟨⟨outgoing env (requestData.field "recipient") (commentSubject t)
    (commentText (commenterNameOf (user.email.getD "")) t c u)
    (commentHtml (commenterNameOf (user.email.getD "")) t c u), ?_, rfl, rfl⟩, ?_, ?_⟩
  · rw [hlog]
    rfl
  · intro hnone
    rw [hnone]
    rfl
  · intro email hsome hno
    rw [hsome, Option.getD_some]
    exact commenterNameOf_no_at email hno

theorem comment_notification_without_local_part_witness :
    (∃ msg, sentMessages
          (handler anonymousCallerEnv (sampleRequest sampleCommentBody)).log = [msg] ∧
        msg.TextBody = commentText (commenterNameOf (anonymousUser.email.getD "")) "LAB-7"
          "Badge <b>ready</b> & waiting" "https://x/t/7" ∧
        msg.HtmlBody = commentHtml (commenterNameOf (anonymousUser.email.getD "")) "LAB-7"
          "Badge <b>ready</b> & waiting" "https://x/t/7") ∧
      (anonymousUser.email = none → commenterNameOf (anonymousUser.email.getD "") = "") ∧
      (∀ email : String, anonymousUser.email = some email → '@' ∉ email.data →
        commenterNameOf (anonymousUser.email.getD "") = email) :=
  comment_notification_without_local_part anonymousCallerEnv (sampleRequest sampleCommentBody)
    "good" anonymousUser sampleCommentBody "LAB-7" "Badge <b>ready</b> & waiting"
    "https://x/t/7" ⟨rfl, by decide, rfl⟩ rfl rfl
    (by simp [requiredFields, sampleCommentBody, Json.field, lookupMember, truthy])
    rfl rfl rfl

end SendEmail

namespace SupportApp

/-! ## The LAB access form -/

theorem checkedFields_eq :
    checkedFields =
      [{ label := "Badge File", name := "badgeFile", type := "file", auto := none,
         fixed := none }] := by
  rfl

/-- C25: `areAllFieldsFilled` is true exactly when `formData.badgeFile` is a
`File`.  Badge File is the only field it looks at: Full Name is filtered out
because its `fixed` attribute, a function, is truthy.  For an email ending in
`@uni.canberra.edu.au` the Full Name input is editable, and a form with a
badge file and an empty full name passes the "You need to fill all the fields."
check. -/
theorem areAllFieldsFilled_iff_badge_file (formData : String → FormValue) :
    (areAllFieldsFilled formData = true ↔ (formData "badgeFile").isFile = true) ∧
      checkedFields.map (fun f => f.name) = ["badgeFile"] ∧
      truthyFixed fullNameField.fixed = true ∧
      (∀ email : String, jsEndsWith email "@uni.canberra.edu.au" = true →
        isReadOnly fullNameField (some email) = false) ∧
      ((formData "badgeFile").isFile = true → fillCheckError formData = none) ∧
      (emptyNameForm "fullName" = .text "" ∧
        emptyNameForm "email" = .text "u3141592@uni.canberra.edu.au" ∧
        isReadOnly fullNameField (some "u3141592@uni.canberra.edu.au") = false ∧
        fillCheckError emptyNameForm = none) := by
  have hiff : areAllFieldsFilled formData = true ↔ (formData "badgeFile").isFile = true := by
    unfold areAllFieldsFilled
    rw [checkedFields_eq]
    cases h : formData "badgeFile" <;> simp [h, FormValue.truthy, FormValue.isFile]
  refine ⟨hiff, rfl, rfl, fun email hemail => ?_, fun hfile => ?_, rfl, rfl, by decide, rfl⟩
  · simp [isReadOnly, fullNameField, fullNameFixed, hemail]
  · unfold fillCheckError
    rw [hiff.2 hfile]
    rfl

/-! ## Ticket filters and status labels -/

theorem mem_backlog (tickets : List Ticket) (t : Ticket) :
    t ∈ filterTickets tickets "backlog" ↔
      t ∈ tickets ∧ t.Done = .null ∧ truthyText t.assigned_to = false := by
  simp [filterTickets, filterKeeps, List.mem_filter]

theorem mem_completed (tickets : List Ticket) (t : Ticket) :
    t ∈ filterTickets tickets "completed" ↔ t ∈ tickets ∧ t.Done = .bool true := by
  simp [filterTickets, filterKeeps, List.mem_filter]

theorem mem_rejected (tickets : List Ticket) (t : Ticket) :
    t ∈ filterTickets tickets "rejected" ↔ t ∈ tickets ∧ t.Done = .bool false := by
  simp [filterTickets, filterKeeps, List.mem_filter]

theorem filterTickets_unrecognised (tickets : List Ticket) (filter : String)
    (hb : filter ≠ "backlog") (hc : filter ≠ "completed") (hr : filter ≠ "rejected") :
    filterTickets tickets filter = tickets := by
  unfold filterTickets
  split
  · rfl
  · have hkeep : filterKeeps filter = fun _ => true := by
      funext ticket
      simp [filterKeeps, hb, hc, hr]
    rw [hkeep, List.filter_true]

/-- C27: the filters `"backlog"`, `"completed"` and `"rejected"` select
pairwise disjoint sets of tickets; a pending ticket with an assignee (`Done`
null, `assigned_to` non-empty) is selected by none of them and by `"all"`;
`"all"` and every unrecognised filter value return the list unchanged. -/
theorem filters_disjoint_not_covering (tickets : List Ticket) :
    (∀ t, t ∈ filterTickets tickets "backlog" →
        t ∉ filterTickets tickets "completed" ∧ t ∉ filterTickets tickets "rejected") ∧
      (∀ t, t ∈ filterTickets tickets "completed" → t ∉ filterTickets tickets "rejected") ∧
      (∀ t, t ∈ tickets → t.Done = .null → truthyText t.assigned_to = true →
        t ∉ filterTickets tickets "backlog" ∧ t ∉ filterTickets tickets "completed" ∧
          t ∉ filterTickets tickets "rejected" ∧ t ∈ filterTickets tickets "all") ∧
      filterTickets tickets "all" = tickets ∧
      (∀ filter : String, filter ≠ "backlog" → filter ≠ "completed" → filter ≠ "rejected" →
        filterTickets tickets filter = tickets) := by
  refine ⟨fun t hb => ?_, fun t hc => ?_, fun t hmem hdone hassigned => ?_, rfl,
    fun filter hb hc hr => filterTickets_unrecognised tickets filter hb hc hr⟩
  · obtain ⟨_, hdone, _⟩ := (mem_backlog tickets t).1 hb
    constructor
    · intro hc
      have h := ((mem_completed tickets t).1 hc).2
      rw [hdone] at h
      cases h
    · intro hr
      have h := ((mem_rejected tickets t).1 hr).2
      rw [hdone] at h
      cases h
  · obtain ⟨_, hdone⟩ := (mem_completed tickets t).1 hc
    intro hr
    have h := ((mem_rejected tickets t).1 hr).2
    rw [hdone] at h
    cases h
  · refine ⟨fun hb => ?_, fun hc => ?_, fun hr => ?_, hmem⟩
    · have h := ((mem_backlog tickets t).1 hb).2.2
      rw [hassigned] at h
      cases h
    · have h := ((mem_completed tickets t).1 hc).2
      rw [hdone] at h
      cases h
    · have h := ((mem_rejected tickets t).1 hr).2
      rw [hdone] at h
      cases h

theorem statusLabel_completed (t : Ticket) :
    statusLabel t = "Completed" ↔ t.Done = .bool true := by
  unfold statusLabel
  split
  · simp [*]
  · split
    · simp [*]
    · split <;> simp [*]

theorem statusLabel_rejected (t : Ticket) :
    statusLabel t = "Rejected" ↔ t.Done = .bool false := by
  unfold statusLabel
  split
  · rename_i h
    simp [h]
  · split
    · simp [*]
    · split <;> simp [*]

theorem statusLabel_backlog (t : Ticket) :
    statusLabel t = "Backlog" ↔
      t.Done ≠ .bool true ∧ t.Done ≠ .bool false ∧ truthyText t.assigned_to = false := by
  unfold statusLabel
  split
  · simp [*]
  · split
    · simp [*]
    · split <;> simp [*]

theorem statusLabel_assigned (t : Ticket) :
    statusLabel t = "Assigned" ↔
      t.Done ≠ .bool true ∧ t.Done ≠ .bool false ∧ truthyText t.assigned_to = true := by
  unfold statusLabel
  split
  · simp [*]
  · split
    · simp [*]
    · split <;> simp [*]

/-- C28: for a ticket of the list whose `Done` is `null`, `true` or `false`,
the `"completed"` filter selects it iff its label is "Completed", `"rejected"`
iff "Rejected", `"backlog"` iff "Backlog"; a ticket labelled "Assigned" is
selected by none of these three filters, only by `"all"`. -/
theorem label_agrees_with_filters (tickets : List Ticket) (t : Ticket) (hmem : t ∈ tickets)
    (hdone : t.Done = .null ∨ t.Done = .bool true ∨ t.Done = .bool false) :
    (t ∈ filterTickets tickets "completed" ↔ statusLabel t = "Completed") ∧
      (t ∈ filterTickets tickets "rejected" ↔ statusLabel t = "Rejected") ∧
      (t ∈ filterTickets tickets "backlog" ↔ statusLabel t = "Backlog") ∧
      (statusLabel t = "Assigned" →
        t ∉ filterTickets tickets "backlog" ∧ t ∉ filterTickets tickets "completed" ∧
          t ∉ filterTickets tickets "rejected" ∧ t ∈ filterTickets tickets "all") := by
  rw [mem_completed, mem_rejected, mem_backlog, statusLabel_completed, statusLabel_rejected,
    statusLabel_backlog, statusLabel_assigned]
  refine ⟨⟨fun h => h.2, fun h => ⟨hmem, h⟩⟩, ⟨fun h => h.2, fun h => ⟨hmem, h⟩⟩,
    ⟨fun h => ?_, fun h => ⟨hmem, ?_, h.2.2⟩⟩, fun h => ⟨fun hb => ?_, fun hc => h.1 hc.2,
      fun hr => h.2.1 hr.2, hmem⟩⟩
  · obtain ⟨_, hnull, hun⟩ := h
    rw [hnull]
    exact ⟨by decide, by decide, hun⟩
  · rcases hdone with hnull | htrue | hfalse
    · exact hnull
    · exact absurd htrue h.1
    · exact absurd hfalse h.2.1
  · have hun := hb.2.2
    rw [h.2.2] at hun
    cases hun

theorem label_agrees_with_filters_witness :
    (assignedPendingTicket ∈ filterTickets [assignedPendingTicket] "completed" ↔
        statusLabel assignedPendingTicket = "Completed") ∧
      (assignedPendingTicket ∈ filterTickets [assignedPendingTicket] "rejected" ↔
        statusLabel assignedPendingTicket = "Rejected") ∧
      (assignedPendingTicket ∈ filterTickets [assignedPendingTicket] "backlog" ↔
        statusLabel assignedPendingTicket = "Backlog") ∧
      (statusLabel assignedPendingTicket = "Assigned" →
        assignedPendingTicket ∉ filterTickets [assignedPendingTicket] "backlog" ∧
          assignedPendingTicket ∉ filterTickets [assignedPendingTicket] "completed" ∧
          assignedPendingTicket ∉ filterTickets [assignedPendingTicket] "rejected" ∧
          assignedPendingTicket ∈ filterTickets [assignedPendingTicket] "all") :=
  label_agrees_with_filters [assignedPendingTicket] assignedPendingTicket (List.Mem.head _)
    (Or.inl rfl)

/-! ## University email checks -/

theorem jsEndsWith_iff (s suffix : String) : jsEndsWith s suffix = true ↔ EndsWith s suffix := by
  unfold jsEndsWith EndsWith
  rw [List.isSuffixOf_iff_suffix]
  constructor
  · rintro ⟨before, h⟩
    refine ⟨⟨before⟩, ?_⟩
    apply String.ext
    simp [String.data_append, h]
  · rintro ⟨before, h⟩
    exact ⟨before.data, by rw [h]; simp [String.data_append]⟩

/-- C29: `isValidUniEmail` is true exactly on the strings that end with
`"@canberra.edu.au"` or `"@uni.canberra.edu.au"` and false on every non-string;
on every string it agrees with the checks of `handleSignup` and
`handlePasswordLogin` in `RequestDetails.jsx`; `handleAssignTicket` refuses
exactly the non-empty strings that `isValidUniEmail` rejects, so it accepts
the empty string in addition. -/
theorem isValidUniEmail_spec (s : String) :
    (isValidUniEmail (.text s) = true ↔
        EndsWith s "@canberra.edu.au" ∨ EndsWith s "@uni.canberra.edu.au") ∧
      isValidUniEmail .notString = false ∧
      signupAllowed s = isValidUniEmail (.text s) ∧
      passwordLoginRefused s = !isValidUniEmail (.text s) ∧
      (s ≠ "" → assignTicketRefused s = !isValidUniEmail (.text s)) ∧
      (assignTicketRefused "" = false ∧ isValidUniEmail (.text "") = false) := by
  refine ⟨?_, rfl, ?_, ?_, fun hne => ?_, rfl, rfl⟩
  · unfold isValidUniEmail
    rw [Bool.or_eq_true, jsEndsWith_iff, jsEndsWith_iff]
  · unfold signupAllowed isValidUniEmail
    exact Bool.or_comm _ _
  · show (!jsEndsWith s "@uni.canberra.edu.au" && !jsEndsWith s "@canberra.edu.au") =
      !(jsEndsWith s "@canberra.edu.au" || jsEndsWith s "@uni.canberra.edu.au")
    cases jsEndsWith s "@uni.canberra.edu.au" <;> cases jsEndsWith s "@canberra.edu.au" <;> rfl
  · have htruthy : truthyText (some s) = true := by simp [truthyText, hne]
    show (truthyText (some s) && !jsEndsWith s "@uni.canberra.edu.au" &&
        !jsEndsWith s "@canberra.edu.au") =
      !(jsEndsWith s "@canberra.edu.au" || jsEndsWith s "@uni.canberra.edu.au")
    rw [htruthy]
    cases jsEndsWith s "@uni.canberra.edu.au" <;> cases jsEndsWith s "@canberra.edu.au" <;> rfl

/-! ## Email confirmation -/

theorem verifyEmail_of_error (verifyOtp : String → OtpOutcome) (p : SearchParams)
    (herr : truthyText p.error = true) :
    verifyEmail verifyOtp p =
      ⟨failure (if p.error = some "access_denied" then "Email link is invalid or has expired"
        else "Verification failed"), [], false⟩ := by
  unfold verifyEmail
  rw [if_pos herr]

theorem verifyEmail_of_skip (verifyOtp : String → OtpOutcome) (p : SearchParams)
    (herr : truthyText p.error = false)
    (hskip : truthyText p.token = false ∨ p.type ≠ some "signup") :
    verifyEmail verifyOtp p =
      ⟨{ loading := false, success := true, message := "Access granted" }, [], true⟩ := by
  unfold verifyEmail
  rw [herr, if_neg Bool.false_ne_true]
  cases htoken : p.token with
  | none => rfl
  | some token =>
    have hcond : (token = "" || decide (p.type ≠ some "signup")) = true := by
      rcases hskip with h | h
      · rw [htoken] at h
        simp [truthyText] at h
        simp [h]
      · simp [h]
    dsimp only
    rw [if_pos hcond]

theorem verifyEmail_of_signup (verifyOtp : String → OtpOutcome) (p : SearchParams)
    (token : String) (herr : truthyText p.error = false) (htoken : p.token = some token)
    (hne : token ≠ "") (htype : p.type = some "signup") :
    verifyEmail verifyOtp p =
      match verifyOtp token with
      | .returned none =>
        ⟨{ loading := false, success := true, message := "Email verified successfully!" },
          [token], true⟩
      | .returned (some message) => ⟨failure message, [token], false⟩
      | .raised message => ⟨failure message, [token], false⟩ := by
  unfold verifyEmail
  rw [herr, if_neg Bool.false_ne_true, htoken]
  have hcond : ¬ (token = "" || decide (p.type ≠ some "signup")) = true := by
    simp [hne, htype]
  dsimp only
  rw [if_neg hcond]

/-- C26, as the code has it: with a non-empty `error` parameter the status is
failure, with message "Email link is invalid or has expired" exactly when the
parameter is `"access_denied"` and "Verification failed" otherwise; without
one, if the token is absent or empty or `type` is not `"signup"` the status is
success with "Access granted" and `verifyOtp` is not called; `verifyOtp` is
called, and the status follows its result, only when the error parameter is
absent or empty, the token is non-empty and `type` is `"signup"`. -/
theorem verifyEmail_decision (verifyOtp : String → OtpOutcome) (p : SearchParams) :
    (p.error = some "access_denied" →
        (verifyEmail verifyOtp p).status = failure "Email link is invalid or has expired" ∧
          (verifyEmail verifyOtp p).otpCalls = []) ∧
      (∀ e : String, p.error = some e → e ≠ "" → e ≠ "access_denied" →
        (verifyEmail verifyOtp p).status = failure "Verification failed" ∧
          (verifyEmail verifyOtp p).otpCalls = []) ∧
      (truthyText p.error = false → (truthyText p.token = false ∨ p.type ≠ some "signup") →
        (verifyEmail verifyOtp p).status =
            { loading := false, success := true, message := "Access granted" } ∧
          (verifyEmail verifyOtp p).otpCalls = []) ∧
      (truthyText p.error = false →
        ∀ token : String, p.token = some token → token ≠ "" → p.type = some "signup" →
          (verifyEmail verifyOtp p).otpCalls = [token] ∧
            (verifyEmail verifyOtp p).status =
              match verifyOtp token with
              | .returned none =>
                { loading := false, success := true, message := "Email verified successfully!" }
              | .returned (some message) => failure message
              | .raised message => failure message) ∧
      ((verifyEmail verifyOtp p).otpCalls ≠ [] →
        truthyText p.error = false ∧ truthyText p.token = true ∧ p.type = some "signup") := by
  refine ⟨fun herr => ?_, fun e herr hne hnot => ?_, fun herr hskip => ?_,
    fun herr token htoken hne htype => ?_, fun hcalls => ?_⟩
  · rw [verifyEmail_of_error verifyOtp p (by rw [herr]; rfl), if_pos herr]
    exact ⟨rfl, rfl⟩
  · have hnot' : ¬ p.error = some "access_denied" := by
      rw [herr]
      intro h
      exact hnot (Option.some.inj h)
    rw [verifyEmail_of_error verifyOtp p (by rw [herr]; simp [truthyText, hne]), if_neg hnot']
    exact ⟨rfl, rfl⟩
  · rw [verifyEmail_of_skip verifyOtp p herr hskip]
    exact ⟨rfl, rfl⟩
  · rw [verifyEmail_of_signup verifyOtp p token herr htoken hne htype]
    cases verifyOtp token with
    | returned verificationError => cases verificationError <;> exact ⟨rfl, rfl⟩
    | raised message => exact ⟨rfl, rfl⟩
  · cases herr : truthyText p.error with
    | true =>
      rw [verifyEmail_of_error verifyOtp p herr] at hcalls
      exact absurd rfl hcalls
    | false =>
      by_cases hskip : truthyText p.token = false ∨ p.type ≠ some "signup"
      · rw [verifyEmail_of_skip verifyOtp p herr hskip] at hcalls
        exact absurd rfl hcalls
      · simp only [not_or, Bool.not_eq_false, ne_eq, not_not] at hskip
        exact ⟨rfl, hskip.1, hskip.2⟩

/-- C26 fails for a link whose `error` parameter is present and empty
(`?error=`): the URL has an `error` parameter, yet the status is success with
"Access granted". -/
theorem empty_error_parameter_granted :
    emptyErrorParams.error = some "" ∧
      (verifyEmail (fun _ => .returned none) emptyErrorParams).status =
        { loading := false, success := true, message := "Access granted" } ∧
      (verifyEmail (fun _ => .returned none) emptyErrorParams).status.success = true :=
  ⟨rfl, rfl, rfl⟩

/-! ## Adding a comment -/

theorem splitChars_ne_nil (sep : Char) (cs : List Char) : SendEmail.splitChars sep cs ≠ [] := by
  cases cs with
  | nil => simp [SendEmail.splitChars]
  | cons c cs =>
    unfold SendEmail.splitChars
    split
    · simp
    · split <;> simp

theorem splitChars_of_not_mem (sep : Char) (cs : List Char) (h : sep ∉ cs) :
    SendEmail.splitChars sep cs = [cs] := by
  induction cs with
  | nil => rfl
  | cons c cs ih =>
    have hc : c ≠ sep := fun hEq => h (by simp [hEq])
    have hcs : sep ∉ cs := fun hmem => h (List.mem_cons_of_mem _ hmem)
    unfold SendEmail.splitChars
    rw [if_neg hc, ih hcs]

theorem splitChars_cons_sep (sep : Char) (cs : List Char) :
    SendEmail.splitChars sep (sep :: cs) = [] :: SendEmail.splitChars sep cs := by
  rw [SendEmail.splitChars, if_pos rfl]

theorem splitChars_cons_ne (sep c : Char) (cs : List Char) (h : c ≠ sep) :
    SendEmail.splitChars sep (c :: cs) =
      match SendEmail.splitChars sep cs with
      | [] => [[c]]
      | piece :: pieces => (c :: piece) :: pieces := by
  rw [SendEmail.splitChars, if_neg h]

theorem splitChars_append_sep (sep : Char) (a b : List Char) :
    SendEmail.splitChars sep (a ++ sep :: b) =
      SendEmail.splitChars sep a ++ SendEmail.splitChars sep b := by
  induction a with
  | nil =>
    rw [List.nil_append, splitChars_cons_sep]
    rfl
  | cons c a ih =>
    rw [List.cons_append]
    by_cases hc : c = sep
    · subst hc
      rw [splitChars_cons_sep, splitChars_cons_sep, ih]
      rfl
    · rw [splitChars_cons_ne _ _ _ hc, splitChars_cons_ne _ _ _ hc, ih]
      cases hsplit : SendEmail.splitChars sep a with
      | nil => exact absurd hsplit (splitChars_ne_nil sep a)
      | cons piece pieces => rfl

theorem jsSplit_append_line (p entry : String) (h : '\n' ∉ entry.data) :
    SendEmail.jsSplit (p ++ "\n" ++ entry) '\n' = SendEmail.jsSplit p '\n' ++ [entry] := by
  unfold SendEmail.jsSplit
  have hdata : (p ++ "\n" ++ entry).data = p.data ++ '\n' :: entry.data := by
    simp [String.data_append]
  rw [hdata, splitChars_append_sep, splitChars_of_not_mem _ _ h, List.map_append]
  rfl

theorem commentEntry_no_newline (timestamp username c : String)
    (ht : '\n' ∉ timestamp.data) (hu : '\n' ∉ username.data) (hc : '\n' ∉ c.data) :
    '\n' ∉ (commentEntry timestamp username c).data := by
  have h1 : '\n' ∉ "[".data := by decide
  have h2 : '\n' ∉ "] @".data := by decide
  have h3 : '\n' ∉ ": ".data := by decide
  unfold commentEntry
  simp only [String.data_append, List.mem_append, not_or]
  exact ⟨⟨⟨⟨⟨h1, ht⟩, h2⟩, hu⟩, h3⟩, hc⟩

theorem commentToAdd_of_empty (comments : Option String) (timestamp username c : String)
    (h : truthyText comments = false) :
    commentToAdd comments timestamp username c = commentEntry timestamp username c := by
  unfold commentToAdd commentEntry
  rw [h, if_neg Bool.false_ne_true]
  simp only [String.append_assoc, String.empty_append]

theorem commentToAdd_of_prior (p timestamp username c : String) (hp : p ≠ "") :
    commentToAdd (some p) timestamp username c =
      p ++ "\n" ++ commentEntry timestamp username c := by
  have htruthy : truthyText (some p) = true := by simp [truthyText, hp]
  unfold commentToAdd commentEntry
  rw [htruthy, if_pos rfl, Option.getD_some]
  simp only [String.append_assoc]

/-- C30: whenever `handleAddComment` writes a value `stored`, with
`entry = "[timestamp] @username: c"` for the signed-in user's name: `stored` is
`entry` when the prior comments `p` are null or empty and `p + "\n" + entry`
otherwise, so `p` is a prefix of `stored`; and when `p` is non-empty and the
comment (like the formatted time and the user name) contains no newline,
splitting `stored` on `"\n"` gives the entries of `p` followed by the one new
entry. -/
theorem comment_append_only (a : CommentAttempt) (stored : String)
    (hstored : handleAddComment a = some stored) :
    ∃ email : String, a.userEmail = some email ∧
      (truthyText a.comments = false →
        stored = commentEntry a.timestamp (usernameOf email) a.newComment) ∧
      (∀ p : String, a.comments = some p → p ≠ "" →
        stored = p ++ "\n" ++ commentEntry a.timestamp (usernameOf email) a.newComment) ∧
      (∀ p : String, a.comments = some p → ∃ rest : String, stored = p ++ rest) ∧
      (∀ p : String, a.comments = some p → p ≠ "" → '\n' ∉ a.newComment.data →
        '\n' ∉ a.timestamp.data → '\n' ∉ (usernameOf email).data →
        SendEmail.jsSplit stored '\n' =
          SendEmail.jsSplit p '\n' ++
            [commentEntry a.timestamp (usernameOf email) a.newComment] ∧
        (SendEmail.jsSplit stored '\n').length = (SendEmail.jsSplit p '\n').length + 1) := by
  unfold handleAddComment at hstored
  split at hstored
  · cases hstored
  · split at hstored
    · cases hstored
    · split at hstored
      · cases hstored
      · rename_i email hemail
        injection hstored with hstored
        subst hstored
        refine ⟨email, hemail, fun hempty => commentToAdd_of_empty _ _ _ _ hempty,
          fun p hp hne => ?_, fun p hp => ?_, fun p hp hne hc ht hu => ?_⟩
        · rw [hp]
          exact commentToAdd_of_prior p _ _ _ hne
        · by_cases hne : p = ""
          · refine ⟨commentEntry a.timestamp (usernameOf email) a.newComment, ?_⟩
            rw [commentToAdd_of_empty _ _ _ _ (by rw [hp, hne]; rfl), hne, String.empty_append]
          · refine ⟨"\n" ++ commentEntry a.timestamp (usernameOf email) a.newComment, ?_⟩
            rw [hp, commentToAdd_of_prior p _ _ _ hne, String.append_assoc]
        · rw [hp, commentToAdd_of_prior p _ _ _ hne,
            jsSplit_append_line p _ (commentEntry_no_newline _ _ _ ht hu hc)]
          exact ⟨rfl, by simp⟩

theorem comment_append_only_witness :
    ∃ email : String, sampleAttempt.userEmail = some email ∧
      (truthyText sampleAttempt.comments = false →
        "[2026-11-05 09:00:00] @alice.smith: Please check\n[2026-11-06 14:03:22] @tech: Badge is ready" =
          commentEntry sampleAttempt.timestamp (usernameOf email) sampleAttempt.newComment) ∧
      (∀ p : String, sampleAttempt.comments = some p → p ≠ "" →
        "[2026-11-05 09:00:00] @alice.smith: Please check\n[2026-11-06 14:03:22] @tech: Badge is ready" =
          p ++ "\n" ++
            commentEntry sampleAttempt.timestamp (usernameOf email) sampleAttempt.newComment) ∧
      (∀ p : String, sampleAttempt.comments = some p → ∃ rest : String,
        "[2026-11-05 09:00:00] @alice.smith: Please check\n[2026-11-06 14:03:22] @tech: Badge is ready" =
          p ++ rest) ∧
      (∀ p : String, sampleAttempt.comments = some p → p ≠ "" →
        '\n' ∉ sampleAttempt.newComment.data →
        '\n' ∉ sampleAttempt.timestamp.data → '\n' ∉ (usernameOf email).data →
        SendEmail.jsSplit
            "[2026-11-05 09:00:00] @alice.smith: Please check\n[2026-11-06 14:03:22] @tech: Badge is ready"
            '\n' =
          SendEmail.jsSplit p '\n' ++
            [commentEntry sampleAttempt.timestamp (usernameOf email) sampleAttempt.newComment] ∧
        (SendEmail.jsSplit
            "[2026-11-05 09:00:00] @alice.smith: Please check\n[2026-11-06 14:03:22] @tech: Badge is ready"
            '\n').length = (SendEmail.jsSplit p '\n').length + 1) :=
  comment_append_only sampleAttempt
    "[2026-11-05 09:00:00] @alice.smith: Please check\n[2026-11-06 14:03:22] @tech: Badge is ready"
    (by decide)

end SupportApp
